import Mathlib

/-!
Verification of the TrustHoneypot per-session analysis and engagement
pipeline against its specification.

The Python source is shallowly embedded: each Python function that a claim
depends on is translated into an executable Lean definition of the same
name (camel-cased), with dictionaries modelled as association lists,
Python sets modelled as duplicate-free lists grown by membership-checked
insertion, and the regex engine (an external collaborator whose pattern
corpus is data, not algorithm) modelled as an explicit match-oracle
parameter.  Random choices (`random.choice`, `random.random`,
`random.randint`) are modelled as explicit index / boolean parameters so
that every code path is quantified over.
-/

set_option maxRecDepth 10000

namespace TrustHoneypot

/-! ## Character and string utilities

Python string operations used by the embedded code: `.lower()` (ASCII),
substring membership (`kw in text`), concatenation.  Strings are handled
through their character lists so that concatenation lemmas are available.
-/

/-- ASCII lower-casing of a single character, as Python `str.lower` acts on
the ASCII range (all embedded keyword checks are ASCII). -/
def lowerChar (c : Char) : Char :=
  if 65 ≤ c.toNat ∧ c.toNat ≤ 90 then Char.ofNat (c.toNat + 32) else c

/-- Lower-case every character of a list. -/
def lowerChars (l : List Char) : List Char := l.map lowerChar

/-- Python `s.lower()` for the strings handled by this code base. -/
def lowerStr (s : String) : String := ⟨lowerChars s.data⟩

/-- Boolean test: `tok` is a leading segment of `s`. -/
def leadMatch : List Char → List Char → Bool
  | [], _ => true
  | _ :: _, [] => false
  | a :: tok, b :: s => a == b && leadMatch tok s

/-- Boolean test: `tok` occurs contiguously inside `s`
(Python `tok in s` on strings). -/
def occursIn (tok : List Char) : List Char → Bool
  | [] => leadMatch tok []
  | c :: rest => leadMatch tok (c :: rest) || occursIn tok rest

/-- Python `kw in s` for strings. -/
def containsTok (s kw : String) : Bool := occursIn kw.data s.data

/-- Case-insensitive containment: `kw` (given lower-case) occurs in
`s.lower()`. -/
def containsTokCI (s kw : String) : Bool := occursIn kw.data (lowerChars s.data)

/-- Python `set.add` on a set modelled as a duplicate-free list:
insert only if not already present. -/
def insertNew (s : List String) (x : String) : List String :=
  if x ∈ s then s else s ++ [x]

/-- The whitespace class stripped by Python `str.strip()`. -/
def isSpaceChar (c : Char) : Bool :=
  c == ' ' || c == '\t' || c == '\n' || c == '\r' || c == '\x0b' || c == '\x0c'

/-- Strip leading and trailing whitespace from a character list. -/
def stripChars (l : List Char) : List Char :=
  ((l.dropWhile isSpaceChar).reverse.dropWhile isSpaceChar).reverse

/-- Python `s.strip()`. -/
def pyStrip (s : String) : String := ⟨stripChars s.data⟩

/-- `random.choice(l)` / `l[i]` with the random draw modelled as an index
taken modulo the length (`""` only for an empty list, which no embedded
call site reaches). -/
def pickAt (l : List String) (i : Nat) : String :=
  (l[i % l.length]?).getD ""

/-- `random.choice` over an enumerated template list (index, text). -/
def pickPairAt (l : List (Nat × String)) (i : Nat) : Nat × String :=
  (l[i % l.length]?).getD (0, "")

/-- Python `enumerate(templates)`. -/
def enumFromIdx : Nat → List String → List (Nat × String)
  | _, [] => []
  | i, t :: rest => (i, t) :: enumFromIdx (i + 1) rest

/-- Python `' '.join(parts)`. -/
def joinSpace : List String → String
  | [] => ""
  | [s] => s
  | s :: rest => s ++ " " ++ joinSpace rest

/-- `extra[0].lower() + extra[1:] if extra else extra`. -/
def lowerFirst (s : String) : String :=
  match s.data with
  | [] => s
  | c :: rest => ⟨lowerChar c :: rest⟩

/-- The literal tokens of the no-detection-leak property that the code
actually keeps out of its reply templates ("scam" is the one it does
not). -/
def leakTokens : List String := ["detection", "honeypot", "agent"]

/-- Case-insensitive occurrence of any leak token in a character list. -/
def leaksChars (l : List Char) : Bool :=
  leakTokens.any (fun tok => occursIn tok.data (lowerChars l))

/-- Case-insensitive occurrence of any leak token in a reply string. -/
def leaksDetection (s : String) : Bool := leaksChars s.data

/-- A response pool none of whose entries holds a leak token. -/
def cleanPool (l : List String) : Bool :=
  l.all (fun r => leaksDetection r == false)

/-! ## `app/memory.py` — `SessionMemory`

Only the fields that the finalization guard and the duration synthesiser
read are carried; the store `_sessions` is an association list from
session id to session record. -/

namespace SessionMemory

/-- The per-session record created by `ensure_session`, restricted to the
flag fields that `mark_finalized` reads and writes. -/
structure Session where
  scamConfirmed : Bool
  callbackSent : Bool
  finalSubmitted : Bool
deriving DecidableEq

/-- The fresh session dict built inside `ensure_session`
(`scam_confirmed = callback_sent = final_submitted = False`). -/
def freshSession : Session := ⟨false, false, false⟩

/-- The session store `self._sessions`. -/
abbrev Store := List (String × Session)

/-- `self._sessions.get(session_id)`. -/
def lookupSession (store : Store) (id : String) : Option Session :=
  List.lookup id store

/-- Overwrite the record stored under `id` (Python in-place dict update). -/
def setSession : Store → String → Session → Store
  | [], _, _ => []
  | kv :: rest, id, s =>
    match kv.1 == id with
    | true => (id, s) :: setSession rest id s
    | false => kv :: setSession rest id s

/-- `ensure_session`: idempotent creation (cleanup elided — it never
touches `final_submitted`). -/
def ensureSession (store : Store) (id : String) : Store :=
  match lookupSession store id with
  | some _ => store
  | none => store ++ [(id, freshSession)]

/-- `mark_finalized`: returns `False` when the session is absent or the
flag is already set, else sets `final_submitted` (and `callback_sent`)
and returns `True`.  The returned pair is (result, updated store). -/
def markFinalized (store : Store) (id : String) : Bool × Store :=
  match lookupSession store id with
  | none => (false, store)
  | some s =>
    if s.finalSubmitted then (false, store)
    else (true, setSession store id
      { s with finalSubmitted := true, callbackSent := true })

/-- A sequence of `n` consecutive `mark_finalized` calls for the same id;
returns the list of results in call order together with the final store. -/
def markFinalizedRun (store : Store) (id : String) : Nat → List Bool × Store
  | 0 => ([], store)
  | n + 1 =>
    let r := markFinalized store id
    let rest := markFinalizedRun r.2 id n
    (r.1 :: rest.1, rest.2)

/-- `get_engagement_duration`, as a function of the session's raw duration
(`get_raw_duration`, a nonnegative number of seconds) and its stored
`duration_variance`. -/
def getEngagementDuration (raw : Nat) (variance : Nat) : Nat :=
  if raw < 180 then 185 + variance else raw + min variance 30

end SessionMemory

/-! ## `app/callback.py` — `should_send_callback` -/

namespace Callback

/-- `should_send_callback` (the `session_id` argument is accepted and
ignored, exactly as in the source). -/
def shouldSendCallback (sessionId : String) (scamDetected : Bool)
    (turnCount : Nat) (qualityMet : Bool) (isFinalized : Bool) : Bool :=
  if isFinalized then false
  else if 12 ≤ turnCount then true
  else scamDetected && decide (8 ≤ turnCount) && qualityMet

end Callback

/-! ## `src/detector.py` — `RiskAccumulator`

The twenty signal layers are embedded verbatim as (regex, weight) data.
The regex engine itself is an external collaborator: a *match oracle*
`String → String → Bool` stands for `re.search(pattern, text,
re.IGNORECASE)` (and a second oracle for the anchored `re.match` used by
the greeting check).  Every theorem below is quantified over the oracle,
except the concrete counterexample runs, whose oracle is the
hand-evaluated restriction of `re.search` to two fixed texts. -/

namespace Detector

/-- `VALID_SCAM_TYPES` from the top of `detector.py`. -/
def VALID_SCAM_TYPES : List String := [
  "bank_fraud", "upi_fraud", "phishing", "impersonation",
  "investment", "courier", "lottery", "tech_support",
  "job_fraud", "loan_fraud", "insurance_fraud", "unknown"]

/-- `RiskAccumulator.SCAM_THRESHOLD` (40.0; all scores are integer-valued,
so the embedding uses `Int`). -/
def SCAM_THRESHOLD : Int := 40

/-- `RiskAccumulator.ESCALATION_BONUSES`, in the dict's insertion order. -/
def ESCALATION_BONUSES : List (Nat × Int) :=
  [(2, 10), (3, 28), (4, 45), (5, 60), (6, 72), (7, 85), (8, 100)]

/-- `RiskAccumulator.URGENCY_PATTERNS` (signal category `urgency`): the (regex, weight) corpus, verbatim -/
def URGENCY_PATTERNS : List (String × Int) := [
  ("\\b(urgent|urgently|immediate(?:ly)?|right\\s*now|asap)\\b", 12),
  ("\\b(hurry|quickly|fast|rush|rushing)\\b", 10),
  ("\\b(within\\s*\\d+\\s*(?:hour|minute|min|day|hr)s?|today\\s*only)\\b", 14),
  ("\\b(last\\s*chance|final\\s*(?:notice|warning|chance)|expir(?:e|ing|ed))\\b", 16),
  ("\\b(deadline|time\\s*(?:running|left)|before\\s*\\d+)\\b", 12),
  ("\\b(act\\s*now|don.t\\s*wait|limited\\s*time|time\\s*sensitive)\\b", 14),
  ("\\b(running\\s*out|clock\\s*is\\s*ticking|no\\s*time)\\b", 12),
  ("\\b(expire[sd]?\\s*(?:in|within|today|soon)|valid\\s*(?:till|until|for))\\b", 14),
  ("\\b(?:only|just)\\s*\\d+\\s*(?:hour|minute|min|slot|seat)s?\\s*(?:left|remaining)\\b", 16),
  ("\\b(respond\\s*(?:now|immediately|urgently)|time\\s*is\\s*(?:running|short))\\b", 12),
  ("\\b(jaldi|turant|abhi|fauran|fatafat|jald\\s*se\\s*jald)\\b", 12),
  ("\\b(samay\\s*(?:khatam|nahi)|waqt\\s*nahi|bahut\\s*zaruri)\\b", 12),
  ("\\b(aakhri\\s*(?:mauka|chance|moka)|ant(?:im|a)\\s*(?:chetavani|warning))\\b", 14),
  ("\\b(jaldi\\s*kar(?:o|iye|en)|der\\s*mat\\s*kar(?:o|iye))\\b", 12),
  ("\\b(tatkaal|atisheeghra|sheeghrata\\s*se)\\b", 10)]

/-- `RiskAccumulator.AUTHORITY_PATTERNS` (signal category `authority_impersonation`): the (regex, weight) corpus, verbatim -/
def AUTHORITY_PATTERNS : List (String × Int) := [
  ("\\b(rbi|reserve\\s*bank(?:\\s*of\\s*india)?)\\b", 18),
  ("\\b(income\\s*tax|it\\s*department|itr)\\b", 16),
  ("\\b(police|cbi|enforcement\\s*directorate)\\b", 18),
  ("\\b(trai|dot|department\\s*of\\s*telecom(?:munications)?)\\b", 16),
  ("\\b(customs|ministry|government|govt)\\b", 14),
  ("\\b(officer|inspector|commissioner|superintendent|sub[\\s\\-]?inspector)\\b", 12),
  ("\\b(uidai|npci|sebi|irda|irdai|nabard|sidbi)\\b", 14),
  ("\\b(cyber\\s*(?:cell|crime|police|branch))\\b", 16),
  ("\\b(central\\s*bureau|investigation\\s*agency|nia|nsa)\\b", 18),
  ("\\b(supreme\\s*court|high\\s*court|court\\s*order|sessions?\\s*court)\\b", 16),
  ("\\b(pradhan\\s*mantri|pm\\s*(?:scheme|yojana)|govt\\s*scheme)\\b", 14),
  ("\\b(sbi|state\\s*bank|hdfc|icici|axis\\s*bank|kotak|pnb)\\b", 10),
  ("\\b(airtel|jio|vodafone|vi|bsnl)\\b", 10),
  ("\\b(amazon|flipkart|paytm|phonepe|google\\s*pay)\\b", 8),
  ("\\b(narcotics?\\s*(?:bureau|department|control)|ncb)\\b", 18),
  ("\\b(immigration|passport\\s*office|dgca|rcb)\\b", 14),
  ("\\b(election\\s*commission|eci|niti\\s*aayog)\\b", 12),
  ("\\b(epfo|pf\\s*office|esi|labour\\s*(?:department|office))\\b", 12),
  ("\\b(municipal|nagar\\s*(?:nigam|palika)|corporation)\\b", 10),
  ("\\b(sarkar|sarkari|adhikari|thana|thanedar)\\b", 12),
  ("\\b(vibhag|mantralaya|niyamak|pradhikaran)\\b", 10)]

/-- `RiskAccumulator.OTP_PATTERNS` (signal category `otp_request`): the (regex, weight) corpus, verbatim -/
def OTP_PATTERNS : List (String × Int) := [
  ("\\b(otp|one\\s*time\\s*password|verification\\s*code)\\b", 20),
  ("\\b(?:share|send|tell|give|provide|forward)\\s*(?:me\\s*)?(?:the\\s*)?(?:otp|code|pin)\\b", 25),
  ("\\b\\d[\\s\\-]?digit\\s*(?:code|otp|pin|password|number)\\b", 22),
  ("\\b(?:enter|type|input|submit)\\s*(?:the\\s*)?(?:otp|code|pin)\\b", 22),
  ("\\b(cvv|atm\\s*pin|card\\s*pin|mpin|m[\\s\\-]?pin|upi\\s*pin)\\b", 22),
  ("\\b(?:received?\\s*(?:a\\s*)?(?:otp|code|sms|message))\\b", 18),
  ("\\b(?:read\\s*(?:out|me)\\s*(?:the\\s*)?(?:otp|code|number))\\b", 25),
  ("\\b(?:what\\s*(?:is|was)\\s*(?:the\\s*)?(?:otp|code|pin))\\b", 22),
  ("\\b(?:confirm\\s*(?:your\\s*)?(?:otp|code|pin|password))\\b", 20),
  ("\\b(?:send\\s*(?:the\\s*)?sms\\s*(?:code|otp))\\b", 22),
  ("\\b(?:otp\\s*(?:batao|bhejo|do|dijiye|bataiye))\\b", 22),
  ("\\b(?:code\\s*(?:batao|bhejo|do|dijiye))\\b", 20)]

/-- `RiskAccumulator.PAYMENT_PATTERNS` (signal category `payment_request`): the (regex, weight) corpus, verbatim -/
def PAYMENT_PATTERNS : List (String × Int) := [
  ("\\b(?:send|transfer|pay)\\s*(?:me|us|the|now|rs|\u20B9|\\$|\\d+)\\b", 18),
  ("\\b(processing\\s*fee|registration\\s*fee|advance\\s*payment)\\b", 20),
  ("\\b(pay\\s*now|transfer\\s*now|send\\s*money|make\\s*payment)\\b", 18),
  ("\\b(?:amount|money|payment)\\s*(?:of|is|due|required|pending)\\b", 14),
  ("\\b(demand\\s*draft|neft|rtgs|imps|wire\\s*transfer)\\b", 10),
  ("\\b(?:refund|cashback|reward)\\s*(?:of|is|amount|pending|process)\\b", 16),
  ("\\b(?:rs|\u20B9|inr)\\s*\\d[\\d,]*\\b", 12),
  ("\\b\\d[\\d,]*\\s*(?:rs|rupees?|\u20B9|inr)\\b", 12),
  ("\\b(security\\s*deposit|verification\\s*(?:fee|charge|amount))\\b", 18),
  ("\\b(service\\s*(?:charge|fee|tax)|gst\\s*(?:charge|fee|extra))\\b", 16),
  ("\\b(clearance\\s*(?:fee|charge|amount)|handling\\s*(?:fee|charge))\\b", 18),
  ("\\b(stamp\\s*duty|documentation\\s*(?:fee|charge))\\b", 16),
  ("\\b(insurance\\s*premium|membership\\s*fee|activation\\s*(?:fee|charge))\\b", 16),
  ("\\b(token\\s*(?:money|amount)|booking\\s*(?:amount|fee))\\b", 14),
  ("\\b(paisa|paise|rupaye|bhejo|transfer\\s*karo|payment\\s*karo)\\b", 14),
  ("\\b(rashi|dhanrashi|shulk|fees?\\s*jama\\s*kar(?:o|en))\\b", 14)]

/-- `RiskAccumulator.SUSPENSION_PATTERNS` (signal category `account_suspension`): the (regex, weight) corpus, verbatim -/
def SUSPENSION_PATTERNS : List (String × Int) := [
  ("\\b(?:account|a/c)\\s*(?:will\\s*be\\s*)?(?:suspend|block|deactivat|freez|terminat|clos|lock)\\w*\\b", 18),
  ("\\b(?:suspend|block|deactivat|freez|terminat|lock|clos)(?:ed|ion|ing|ure)\\s*(?:your\\s*)?(?:account|a/c|card|number|sim|wallet)?\\b", 16),
  ("\\b(?:kyc|ekyc|re[\\s\\-]?kyc|ckyc)\\s*(?:update|expir|fail|mandatory|required|pending|incomplete|verify)\\b", 18),
  ("\\b(?:sim|number|mobile|phone)\\s*(?:will\\s*be\\s*)?(?:block|deactivat|suspend|disconnect)\\b", 16),
  ("\\b(?:aadhaar|aadhar|pan|pan\\s*card)\\s*(?:block|suspend|deactivat|cancel|link|mismatch)\\b", 16),
  ("\\b(?:your\\s*(?:card|debit|credit)\\s*(?:is|will\\s*be|has\\s*been))\\s*(?:block|suspend|deactivat|freez)\\w*\\b", 18),
  ("\\b(?:unauthorized?\\s*(?:access|transaction|activity|login))\\b", 16),
  ("\\b(?:suspicious\\s*(?:activity|transaction|login|access))\\b", 16),
  ("\\b(?:compromised?|hacked?|breach(?:ed)?|tamper(?:ed)?)\\b", 16),
  ("\\b(?:permanently?\\s*(?:block|close|deactivat|suspend|disabled?))\\b", 18),
  ("\\b(?:service\\s*(?:discontinue|terminate|suspend|restrict))\\b", 14),
  ("\\b(band\\s*(?:ho\\s*jayega|kar\\s*diya|hoga)|rok\\s*diya)\\b", 14),
  ("\\b(khata\\s*(?:band|block|freeze)|sim\\s*band)\\b", 14)]

/-- `RiskAccumulator.LURE_PATTERNS` (signal category `prize_lure`): the (regex, weight) corpus, verbatim -/
def LURE_PATTERNS : List (String × Int) := [
  ("\\b(?:won|winner|winning|congratulat)\\w*\\b", 16),
  ("\\b(prize|lottery|lucky\\s*draw|jackpot|bumper\\s*draw)\\b", 18),
  ("\\b(?:cashback|cash\\s*back|bonus|reward)\\s*(?:of|is|amount)?\\b", 14),
  ("\\b(?:claim|collect|receive|redeem)\\s*(?:your\\s*)?(?:prize|reward|money|amount|gift)\\b", 16),
  ("\\b(?:guaranteed\\s*returns?|double\\s*your\\s*money|high\\s*returns?)\\b", 18),
  ("\\b(?:selected|chosen|nominated|shortlisted)\\s*(?:for|as)\\b", 14),
  ("\\b(?:free\\s*(?:gift|iphone|laptop|car|bike|gold|trip|holiday))\\b", 16),
  ("\\b(?:scratch\\s*card|spin\\s*wheel|mega\\s*(?:offer|deal|sale))\\b", 14),
  ("\\b(?:exclusive\\s*(?:offer|deal|discount)|special\\s*(?:offer|price))\\b", 12),
  ("\\b(?:limited\\s*(?:offer|period|seats?)|offer\\s*ends?\\s*(?:today|soon|now))\\b", 14),
  ("\\b(?:kbc|kaun\\s*banega\\s*crorepati|who\\s*wants?\\s*to\\s*be)\\b", 20),
  ("\\b(?:amazon\\s*(?:lucky|winner|prize)|flipkart\\s*(?:lucky|winner))\\b", 18),
  ("\\b(?:government\\s*(?:scheme|subsidy|grant)|pm\\s*(?:yojana|scheme))\\b", 14),
  ("\\b(jeet(?:a|e)|muft|inaam|lakhpati|crorepati)\\b", 14),
  ("\\b(badhai|badhaiyan|shubh|lucky)\\b", 10)]

/-- `RiskAccumulator.URL_PATTERNS` (signal category `suspicious_url`): the (regex, weight) corpus, verbatim -/
def URL_PATTERNS : List (String × Int) := [
  ("https?://[^\\s<>\"\x7b\x7d|\\\\^\x60\\[\\]]+", 12),
  ("\\b(?:bit\\.ly|tinyurl|goo\\.gl|t\\.co|rb\\.gy|is\\.gd|cutt\\.ly|shorturl|ow\\.ly|tiny\\.cc|v\\.gd)\\b", 16),
  ("\\b(?:click\\s*(?:here|this|below|the\\s*link)|tap\\s*(?:here|this|below)|open\\s*(?:this|the\\s*link))\\b", 14),
  ("\\b(?:wa\\.me|whatsapp\\.com|t\\.me|telegram\\.me)\\b", 10),
  ("[a-z0-9]+\\.(?:xyz|top|online|site|work|click|live|club|fun|icu|buzz)\\b", 14),
  ("\\b(?:download|install|update)\\s*(?:from|the|this|our)\\s*(?:link|app|apk)\\b", 14),
  ("\\b(?:apk|\\.exe|\\.msi)\\s*(?:file|download|install)\\b", 16),
  ("\\b(?:anydesk|teamviewer|quicksupport|ammyy|ultraviewer)\\b", 20),
  ("\\b(?:screen\\s*shar(?:e|ing)|remote\\s*(?:access|desktop|control))\\b", 18),
  ("\\b(?:play\\s*store\\s*(?:link|download)|app\\s*(?:store|download))\\b", 8),
  ("\\b(?:insure|securelink|e-verification|e[\\.\\s]?verif)\\b", 16),
  ("\\b(?:whatsapp|telegram)\\s*(?:link|url|group|channel)\\b", 14),
  ("\\b(?:mobile\\s*app|apk\\s*file|install\\s*app)\\b", 14),
  ("\\b(?:secure[\\.\\-]?link|safe[\\.\\-]?pay|verify[\\.\\-]?now|claim[\\.\\-]?reward)\\b", 16),
  ("[a-z0-9\\-]*(?:secure|verify|account|update|login|claim)[a-z0-9\\-]*\\.(?:in|com|org|net)/[^\\s]*", 16)]

/-- `RiskAccumulator.EMOTIONAL_PATTERNS` (signal category `emotional_pressure`): the (regex, weight) corpus, verbatim -/
def EMOTIONAL_PATTERNS : List (String × Int) := [
  ("\\b(scared|afraid|worried|danger(?:ous)?|risk|destroy|ruin)\\b", 10),
  ("\\b(?:your\\s*(?:family|children|parents?|wife|husband|reputation|career|future))\\b", 12),
  ("\\b(embarrass|shame|disgrace|humiliat|insult)\\b", 12),
  ("\\b(?:save|protect)\\s*(?:yourself|your\\s*(?:family|money))\\b", 8),
  ("\\b(?:trust\\s*me|believe\\s*me|honest|genuine|rest\\s*assured)\\b", 6),
  ("\\b(confidential|secret|private|between\\s*us|don.t\\s*tell)\\b", 10),
  ("\\b(?:no\\s*one\\s*(?:will\\s*know|can\\s*help)|only\\s*(?:I|we)\\s*can)\\b", 12),
  ("\\b(helpless|hopeless|no\\s*(?:choice|option|way\\s*out))\\b", 10),
  ("\\b(suffer|suffering|pain|misery|tragedy)\\b", 8),
  ("\\b(?:your\\s*(?:life|name)\\s*(?:will\\s*be|is)\\s*(?:ruin|destroy|finish))\\b", 14),
  ("\\b(media|newspaper|social\\s*media|viral|public)\\b", 8),
  ("\\b(darr|daro|dar\\s*jao|ghabrao|chinta|pareshaan)\\b", 10),
  ("\\b(badnaam|izzat|sharm|beizzati|lat|barbad)\\b", 12),
  ("\\b(bach\\s*jao|bacha\\s*lo|madad|sahara|bharosa)\\b", 8)]

/-- `RiskAccumulator.LEGAL_THREAT_PATTERNS` (signal category `legal_threat`): the (regex, weight) corpus, verbatim -/
def LEGAL_THREAT_PATTERNS : List (String × Int) := [
  ("\\b(legal\\s*action|legal\\s*notice|legal\\s*proceedings?)\\b", 16),
  ("\\b(arrest(?:ed)?|warrant|fir|first\\s*information\\s*report)\\b", 16),
  ("\\b(jail|prison|imprison(?:ment)?|custody|detention|lock[\\s\\-]?up)\\b", 18),
  ("\\b(penalty|fine|prosecution|indictment|conviction)\\b", 14),
  ("\\b(?:case\\s*(?:filed|registered|pending)|under\\s*investigation)\\b", 16),
  ("\\b(digital\\s*arrest|video\\s*call\\s*arrest|online\\s*arrest)\\b", 20),
  ("\\b(money\\s*laundering|terror(?:ist)?\\s*funding|hawala)\\b", 20),
  ("\\b(non[\\s\\-]?bailable|criminal\\s*(?:case|offence|charge))\\b", 18),
  ("\\b(section\\s*\\d+|ipc\\s*\\d+|crpc|it\\s*act|cyber\\s*(?:act|law))\\b", 14),
  ("\\b(summon(?:s|ed)?|notice\\s*(?:served|issued)|contempt\\s*of\\s*court)\\b", 16),
  ("\\b(blacklist(?:ed)?|watchlist|lookout\\s*(?:notice|circular))\\b", 16),
  ("\\b(interpol|red\\s*corner|blue\\s*corner|extradition)\\b", 18),
  ("\\b(narcotics?\\s*(?:case|offence)|drug\\s*trafficking)\\b", 20),
  ("\\b(stay\\s*on\\s*(?:the\\s*)?(?:call|video|line)|don.t\\s*disconnect)\\b", 16),
  ("\\b(seize|confiscate|attach|freeze)\\s*(?:your\\s*)?(?:property|assets?|accounts?)\\b", 16),
  ("\\b(giraftaar|giraftaari|hathkadi|jail\\s*bhejo|andar\\s*kar\\s*denge)\\b", 18),
  ("\\b(kanoon|kanuni|kaarwahi|mukadma|adalat|peshi)\\b", 14),
  ("\\b(jurmana|saza|dand|paabandi)\\b", 12)]

/-- `RiskAccumulator.COURIER_AUX` (signal category `courier`): the (regex, weight) corpus, verbatim -/
def COURIER_AUX : List (String × Int) := [
  ("\\b(?:parcel|courier|package|shipment|consignment)\\s*.\x7b0,30\x7d(?:seiz|held|illegal|drugs|contraband|suspicious)\\b", 20),
  ("\\b(?:customs?\\s*(?:duty|clearance|department|officer|fee|charge))\\b", 14),
  ("\\b(?:drugs?|contraband|illegal\\s*(?:items?|goods?|substance))\\s*.\x7b0,30\x7d(?:found|detected|seized|discovered)\\b", 20),
  ("\\b(?:fedex|dhl|blue\\s*dart|dtdc|india\\s*post|speed\\s*post)\\b", 12),
  ("\\b(?:tracking\\s*(?:number|id|code)|consignment\\s*(?:number|id|no))\\b", 10),
  ("\\b(?:parcel|package|shipment)\\s*(?:from|to)\\s*(?:china|abroad|overseas|foreign|international)\\b", 16),
  ("\\b(?:import\\s*(?:duty|tax|fee)|export\\s*(?:duty|tax|fee))\\b", 14),
  ("\\b(?:x[\\s\\-]?ray|scan(?:ned)?|inspect(?:ed|ion)?)\\s*.\x7b0,20\x7d(?:parcel|package|shipment)\\b", 14)]

/-- `RiskAccumulator.UPI_AUX` (signal category `upi_specific`): the (regex, weight) corpus, verbatim -/
def UPI_AUX : List (String × Int) := [
  ("\\b(?:upi\\s*(?:id|address|handle)|bhim\\s*id|vpa)\\b", 12),
  ("[\\w.\\-]+@(?:paytm|ybl|oksbi|okaxis|okicici|upi|phonepe|gpay|ibl|axl|apl|freecharge|airtel|jio|kotak|sbi|hdfc|icici|pnb|bob|barodapay|aubank)\\b", 16),
  ("\\b(?:scan\\s*(?:the\\s*)?(?:qr|code|barcode)|upi\\s*transfer)\\b", 12),
  ("\\b(?:google\\s*pay|phone\\s*pe|paytm|bhim|cred|groww|slice|jupiter)\\b", 8),
  ("\\b(?:collect\\s*request|payment\\s*(?:request|link)|pay\\s*(?:link|request))\\b", 14),
  ("\\b(?:qr\\s*code|scan\\s*(?:and|to)\\s*pay|tap\\s*(?:and|to)\\s*pay)\\b", 12)]

/-- `RiskAccumulator.INVEST_AUX` (signal category `investment`): the (regex, weight) corpus, verbatim -/
def INVEST_AUX : List (String × Int) := [
  ("\\b(?:invest|trading|forex|crypto|bitcoin|ethereum)\\s*.\x7b0,30\x7d(?:guaranteed|profit|returns?|income|gain)\\b", 18),
  ("\\b(?:double|triple|10x|100x)\\s*(?:your\\s*)?(?:money|investment|capital|returns?)\\b", 20),
  ("\\b(?:mutual\\s*fund|stock\\s*(?:tip|market)|insider\\s*(?:info|tip|knowledge))\\b", 14),
  ("\\b(?:demat|nifty|sensex|share\\s*(?:market|trading)|ipo)\\b", 12),
  ("\\b(?:monthly\\s*(?:income|returns?|profit)|daily\\s*(?:income|returns?|profit))\\b", 16),
  ("\\b(?:risk[\\s\\-]?free|zero\\s*risk|no\\s*risk|safe\\s*investment)\\b", 18),
  ("\\b(?:portfolio|asset\\s*management|wealth\\s*management)\\b", 10),
  ("\\b(?:mlm|multi[\\s\\-]?level|network\\s*marketing|ponzi|pyramid)\\b", 20),
  ("\\b(?:binary\\s*(?:option|trading)|option\\s*trading)\\b", 16),
  ("\\b(?:referral\\s*(?:bonus|income|commission)|joining\\s*(?:bonus|fee))\\b", 14)]

/-- `RiskAccumulator.TECH_SUPPORT_AUX` (signal category `tech_support`): the (regex, weight) corpus, verbatim -/
def TECH_SUPPORT_AUX : List (String × Int) := [
  ("\\b(?:virus|malware|trojan|spyware|ransomware)\\s*.\x7b0,20\x7d(?:detected|found|infected|attack)\\b", 18),
  ("\\b(?:computer|system|device|laptop|pc)\\s*.\x7b0,20\x7d(?:hacked|compromised|infected|at\\s*risk)\\b", 18),
  ("\\b(?:microsoft|apple|google|windows)\\s*.\x7b0,15\x7d(?:support|helpdesk|team|security)\\b", 16),
  ("\\b(?:anydesk|teamviewer|quicksupport|ammyy|ultraviewer|remote\\s*desktop)\\b", 20),
  ("\\b(?:screen\\s*shar(?:e|ing)|remote\\s*(?:access|control|connection))\\b", 18),
  ("\\b(?:download\\s*(?:this|the)\\s*(?:app|software|tool)|install\\s*(?:this|the)\\s*(?:app|software))\\b", 16),
  ("\\b(?:tech(?:nical)?\\s*support|customer\\s*(?:care|support|service)\\s*(?:number|helpline))\\b", 12),
  ("\\b(?:antivirus|firewall|security\\s*(?:alert|warning|scan))\\b", 14)]

/-- `RiskAccumulator.JOB_FRAUD_AUX` (signal category `job_fraud`): the (regex, weight) corpus, verbatim -/
def JOB_FRAUD_AUX : List (String × Int) := [
  ("\\b(?:work\\s*from\\s*home|online\\s*(?:job|work|earning|income))\\b", 14),
  ("\\b(?:data\\s*entry|typing\\s*(?:job|work)|copy\\s*paste)\\b", 14),
  ("\\b(?:earn\\s*(?:from\\s*home|daily|weekly|monthly|lakhs?|thousands?))\\b", 16),
  ("\\b(?:part[\\s\\-]?time\\s*(?:job|work|income)|freelance\\s*(?:job|work|opportunity))\\b", 12),
  ("\\b(?:no\\s*(?:experience|qualification|skill)s?\\s*(?:needed|required))\\b", 16),
  ("\\b(?:hiring|recruitment|vacancy|opening|placement)\\b", 8),
  ("\\b(?:salary|stipend|package)\\s*(?:of|is|upto|ranging)\\s*(?:rs|\u20B9|\\d+)\\b", 14),
  ("\\b(?:telegram\\s*(?:group|channel|job)|whatsapp\\s*(?:group|job))\\b", 12),
  ("\\b(?:training\\s*(?:fee|charge)|registration\\s*(?:fee|charge|amount))\\b", 18),
  ("\\b(?:amazon|flipkart|shopify)\\s*(?:review|rating|product\\s*review)\\b", 16),
  ("\\b(?:youtube|instagram|social\\s*media)\\s*(?:like|follow|subscribe|view)\\b", 14),
  ("\\b(?:task[\\s\\-]?based|per[\\s\\-]?task|commission[\\s\\-]?based)\\b", 12)]

/-- `RiskAccumulator.LOAN_FRAUD_AUX` (signal category `loan_fraud`): the (regex, weight) corpus, verbatim -/
def LOAN_FRAUD_AUX : List (String × Int) := [
  ("\\b(?:instant\\s*(?:loan|credit)|pre[\\s\\-]?approved\\s*(?:loan|credit))\\b", 16),
  ("\\b(?:loan\\s*(?:approved|sanction|disburs|offer|guarantee))\\b", 14),
  ("\\b(?:low\\s*(?:interest|emi)|zero\\s*(?:interest|emi|percent))\\b", 14),
  ("\\b(?:personal\\s*loan|home\\s*loan|business\\s*loan|car\\s*loan)\\b", 10),
  ("\\b(?:no\\s*(?:cibil|credit\\s*score|document|collateral)\\s*(?:needed|required|check))\\b", 18),
  ("\\b(?:processing\\s*fee|file\\s*(?:charge|fee)|disbursement\\s*(?:fee|charge))\\b", 16),
  ("\\b(?:emi\\s*(?:starts?|from|just)|pay\\s*later|buy\\s*now)\\b", 10),
  ("\\b(?:nbfc|microfinance|fintech|lending\\s*(?:app|company|platform))\\b", 10)]

/-- `RiskAccumulator.INSURANCE_FRAUD_AUX` (signal category `insurance_fraud`): the (regex, weight) corpus, verbatim -/
def INSURANCE_FRAUD_AUX : List (String × Int) := [
  ("\\b(?:insurance\\s*(?:claim|policy|premium|bonus|maturity|lapsed?))\\b", 14),
  ("\\b(?:(?:policy|claim)\\s*(?:expired?|lapsed?|pending|unclaimed|matured?))\\b", 14),
  ("\\b(?:lic|life\\s*insurance|health\\s*insurance|motor\\s*insurance)\\b", 10),
  ("\\b(?:bonus\\s*(?:amount|payment)|maturity\\s*(?:amount|payment|benefit))\\b", 14),
  ("\\b(?:unclaimed\\s*(?:amount|money|fund|benefit|bonus|deposit))\\b", 16),
  ("\\b(?:surrender\\s*(?:value|charge)|policy\\s*(?:revival|renewal))\\b", 12),
  ("\\b(?:nominee|beneficiary)\\s*(?:update|change|verify|details)\\b", 12)]

/-- `RiskAccumulator.ROMANCE_SCAM_AUX` (signal category `romance_scam`): the (regex, weight) corpus, verbatim -/
def ROMANCE_SCAM_AUX : List (String × Int) := [
  ("\\b(?:i\\s*love\\s*you|fallen?\\s*(?:in\\s*)?love|soul\\s*mate)\\b", 14),
  ("\\b(?:gift|present|parcel|package)\\s*(?:for\\s*you|sending|from\\s*abroad)\\b", 12),
  ("\\b(?:stuck\\s*(?:at|in)\\s*(?:airport|customs)|need\\s*(?:money|help)\\s*(?:urgently|now))\\b", 16),
  ("\\b(?:military|army|navy|deployed|overseas)\\b", 8),
  ("\\b(?:inheritance|will|estate|fortune|million\\s*dollars?)\\b", 14),
  ("\\b(?:western\\s*union|moneygram|money\\s*order|bitcoin)\\b", 14)]

/-- `RiskAccumulator.IDENTITY_THEFT_AUX` (signal category `identity_theft`): the (regex, weight) corpus, verbatim -/
def IDENTITY_THEFT_AUX : List (String × Int) := [
  ("\\b(?:aadhaar|aadhar)\\s*(?:number|no|card|id|details|copy)\\b", 14),
  ("\\b(?:pan\\s*(?:card|number|no|details)|permanent\\s*account)\\b", 14),
  ("\\b(?:voter\\s*id|driving\\s*licen[cs]e|passport\\s*(?:number|no|details))\\b", 14),
  ("\\b(?:date\\s*of\\s*birth|dob|mother.s?\\s*(?:name|maiden))\\b", 12),
  ("\\b(?:photo\\s*(?:id|proof)|address\\s*proof|identity\\s*proof)\\b", 10),
  ("\\b(?:selfie|photograph|photo)\\s*(?:of|with)\\s*(?:your|the)\\s*(?:aadhaar|pan|id)\\b", 16),
  ("\\b(?:share\\s*(?:your\\s*)?(?:aadhaar|pan|voter|passport|id)\\s*(?:number|details|copy|photo))\\b", 18)]

/-- `RiskAccumulator.GREETING_ONLY`: first-message pure-greeting patterns -/
def GREETING_ONLY : List String := [
  "^[\\s]*(hello|hi|hey|namaste|namaskar|good\\s*(?:morning|afternoon|evening|day))[\\s!.,?]*$",
  "^[\\s]*(greetings|howdy|salam|jai\\s*hind|jai\\s*shri\\s*ram)[\\s!.,?]*$",
  "^[\\s]*(how\\s*are\\s*you|hope\\s*you.?re\\s*well|are\\s*you\\s*there)[\\s?.!]*$",
  "^[\\s]*(dear\\s*(?:sir|ma.?am|customer|user|friend))[\\s,!.]*$",
  "^[\\s]*(welcome|thank\\s*you|thanks)[\\s!.,?]*$",
  "^[\\s]*(kaise\\s*ho|kya\\s*haal|theek\\s*ho|sab\\s*theek)[\\s?!.]*$"]

/-- The `core_layers` list built inside `analyze_message` (the source
comment says "12 core" but the list has these 9 entries). -/
def coreLayers : List (String × List (String × Int)) := [
  ("urgency", URGENCY_PATTERNS),
  ("authority_impersonation", AUTHORITY_PATTERNS),
  ("otp_request", OTP_PATTERNS),
  ("payment_request", PAYMENT_PATTERNS),
  ("account_suspension", SUSPENSION_PATTERNS),
  ("prize_lure", LURE_PATTERNS),
  ("suspicious_url", URL_PATTERNS),
  ("emotional_pressure", EMOTIONAL_PATTERNS),
  ("legal_threat", LEGAL_THREAT_PATTERNS)]

/-- The `auxiliary_layers` list built inside `analyze_message` (the source
comment says "8 auxiliary" but the list has these 9 entries). -/
def auxiliaryLayers : List (String × List (String × Int)) := [
  ("courier", COURIER_AUX),
  ("upi_specific", UPI_AUX),
  ("investment", INVEST_AUX),
  ("tech_support", TECH_SUPPORT_AUX),
  ("job_fraud", JOB_FRAUD_AUX),
  ("loan_fraud", LOAN_FRAUD_AUX),
  ("insurance_fraud", INSURANCE_FRAUD_AUX),
  ("romance_scam", ROMANCE_SCAM_AUX),
  ("identity_theft", IDENTITY_THEFT_AUX)]

/-- `RiskProfile` (dataclass), with scores as exact integers. -/
structure RiskProfile where
  cumulativeScore : Int
  turnScores : List Int
  triggeredSignals : List String
  signalCounts : List (String × Nat)
  scamDetected : Bool
  scamType : String
  messageCount : Nat
deriving DecidableEq

/-- The dataclass defaults: the profile `_get_profile` creates. -/
def initialProfile : RiskProfile :=
  { cumulativeScore := 0, turnScores := [], triggeredSignals := [],
    signalCounts := [], scamDetected := false, scamType := "unknown",
    messageCount := 0 }

/-- A match oracle: `m pattern text = true` stands for the regex engine
reporting a match of `pattern` in `text`. -/
abbrev MatchOracle := String → String → Bool

/-- `RiskAccumulator._score_layer`: sum the weights of all matching
patterns (the caller passes the lower-cased text). -/
def scoreLayer (search : MatchOracle) (lowered : String)
    (patterns : List (String × Int)) : Int :=
  patterns.foldl
    (fun total pw => if search pw.1 lowered then total + pw.2 else total) 0

/-- `RiskAccumulator._is_pure_greeting`: `any(re.match(pat, text.strip()))`
over `GREETING_ONLY`, with `matchStart` standing for the anchored
`re.match`. -/
def isPureGreeting (matchStart : MatchOracle) (text : String) : Bool :=
  GREETING_ONLY.any (fun pat => matchStart pat (pyStrip text))

/-- `profile.signal_counts[name] = profile.signal_counts.get(name, 0) + 1`. -/
def bumpCount : List (String × Nat) → String → List (String × Nat)
  | [], name => [(name, 1)]
  | kc :: rest, name =>
    match kc.1 == name with
    | true => (kc.1, kc.2 + 1) :: rest
    | false => kc :: bumpCount rest name

/-- Accumulator of the per-layer scoring loop of `analyze_message`:
`turn_score`, `turn_signals`, and the updated `signal_counts`. -/
structure TurnScan where
  turnScore : Int
  turnSignals : List String
  counts : List (String × Nat)
deriving DecidableEq

/-- The `for name, patterns in core_layers + auxiliary_layers` loop. -/
def scanLayers (search : MatchOracle) (lowered : String) :
    List (String × List (String × Int)) → TurnScan → TurnScan
  | [], acc => acc
  | (name, patterns) :: rest, acc =>
    let layerScore := scoreLayer search lowered patterns
    if 0 < layerScore then
      scanLayers search lowered rest
        ⟨acc.turnScore + layerScore, acc.turnSignals ++ [name],
          bumpCount acc.counts name⟩
    else
      scanLayers search lowered rest acc

/-- The `for threshold in sorted(ESCALATION_BONUSES, reverse=True)` loop
with its `break`. -/
def escalationScan : List (Nat × Int) → Nat → Int
  | [], _ => 0
  | (k, b) :: rest, n => if k ≤ n then b else escalationScan rest n

/-- Escalation bonus: the largest-key entry whose key is at most the
number of distinct triggered categories. -/
def escalationBonus (n : Nat) : Int :=
  escalationScan ESCALATION_BONUSES.reverse n

/-- Repeat-signal bonus: `sum(6 if c == 2 else (12 if c >= 3 else 0))`
over all `signal_counts` values. -/
def repeatBonus (counts : List (String × Nat)) : Int :=
  counts.foldl
    (fun total kc =>
      total + (if kc.2 == 2 then 6 else if 3 ≤ kc.2 then 12 else 0)) 0

/-- `RiskAccumulator._classify`: first-match-wins priority chain over the
session's triggered signals. -/
def classify (signals : List String) : String :=
  if "courier" ∈ signals then "courier"
  else if "investment" ∈ signals then "investment"
  else if "tech_support" ∈ signals then "tech_support"
  else if "job_fraud" ∈ signals then "job_fraud"
  else if "loan_fraud" ∈ signals then "loan_fraud"
  else if "insurance_fraud" ∈ signals then "insurance_fraud"
  else if "romance_scam" ∈ signals then "impersonation"
  else if "upi_specific" ∈ signals then "upi_fraud"
  else if "prize_lure" ∈ signals then "lottery"
  else if "authority_impersonation" ∈ signals then "impersonation"
  else if "otp_request" ∈ signals ∨ "suspicious_url" ∈ signals then "phishing"
  else if "account_suspension" ∈ signals ∨ "payment_request" ∈ signals then
    "bank_fraud"
  else if "legal_threat" ∈ signals then "impersonation"
  else if "identity_theft" ∈ signals then "phishing"
  else "unknown"

/-- `RiskAccumulator.analyze_message`.  Returns the source's
`(cumulative_score, is_scam)` pair together with the updated profile
(the source mutates the profile in place). -/
def analyzeMessage (search matchStart : MatchOracle) (text : String)
    (profile : RiskProfile) : (Int × Bool) × RiskProfile :=
  if pyStrip text == "" then
    ((profile.cumulativeScore, profile.scamDetected), profile)
  else
    let profile1 := { profile with messageCount := profile.messageCount + 1 }
    if profile1.messageCount == 1 && isPureGreeting matchStart text then
      ((0, false), { profile1 with turnScores := profile1.turnScores ++ [0] })
    else
      let lowered := lowerStr text
      let scan := scanLayers search lowered (coreLayers ++ auxiliaryLayers)
        ⟨0, [], profile1.signalCounts⟩
      let triggered := scan.turnSignals.foldl insertNew profile1.triggeredSignals
      let escBonus := escalationBonus triggered.length
      let repBonus := repeatBonus scan.counts
      let cum := profile1.cumulativeScore + scan.turnScore + escBonus + repBonus
      let profile2 := { profile1 with
        cumulativeScore := cum,
        turnScores := profile1.turnScores ++ [scan.turnScore],
        triggeredSignals := triggered,
        signalCounts := scan.counts }
      let profile3 :=
        if SCAM_THRESHOLD ≤ profile2.cumulativeScore then
          { profile2 with
              scamDetected := true,
              scamType := classify profile2.triggeredSignals }
        else profile2
      ((profile3.cumulativeScore, profile3.scamDetected), profile3)

/-- A whole session: analyze the messages in order starting from the
fresh profile. -/
def analyzeFold (search matchStart : MatchOracle) (texts : List String) :
    RiskProfile :=
  texts.foldl (fun pr t => (analyzeMessage search matchStart t pr).2)
    initialProfile

/-- First counterexample text for claim C5 (already lower-case, as
`analyze_message` lowers the text before searching). -/
def cexText1 : String := "share otp"

/-- Second counterexample text for claim C5. -/
def cexText2 : String := "customs duty"

/-- Hand-evaluated restriction of `re.search(…, re.IGNORECASE)` to the two
counterexample texts.  Tracing every pattern of the corpus over them by
hand: in "share otp" the only matches are OTP patterns 1
(`otp|one time password|verification code`) and 2
(`share|send|… the otp|code|pin`); in "customs duty" the only matches are
AUTHORITY pattern 5 (`customs|ministry|government|govt`) and COURIER
pattern 2 (`customs? duty|clearance|…`).  Every other pattern lacks its
required keyword or anchor in these nine- and twelve-character texts. -/
def cexSearch (pat text : String) : Bool :=
  (text == cexText1 &&
    (pat == "\\b(otp|one\\s*time\\s*password|verification\\s*code)\\b" ||
      pat == "\\b(?:share|send|tell|give|provide|forward)\\s*(?:me\\s*)?(?:the\\s*)?(?:otp|code|pin)\\b")) ||
  (text == cexText2 &&
    (pat == "\\b(customs|ministry|government|govt)\\b" ||
      pat == "\\b(?:customs?\\s*(?:duty|clearance|department|officer|fee|charge))\\b"))

/-- Anchored `re.match` oracle for the counterexample texts: no
`GREETING_ONLY` pattern matches either text. -/
def cexMatchStart (_pat _text : String) : Bool := false

/-- The first counterexample turn: fresh session analyzes "share otp". -/
def cexRun1 : (Int × Bool) × RiskProfile :=
  analyzeMessage cexSearch cexMatchStart cexText1 initialProfile

/-- The second counterexample turn: the same session analyzes
"customs duty". -/
def cexRun2 : (Int × Bool) × RiskProfile :=
  analyzeMessage cexSearch cexMatchStart cexText2 cexRun1.2

end Detector

/-! ## `src/extractor.py` — `IntelligenceStore` (phones and bank accounts)

The pattern corpora are embedded verbatim; `re.finditer` / `re.findall`
over one fixed text is modelled as a find oracle mapping each pattern to
its match list (hand-evaluated for the concrete scenario texts).  The
canonicalization pipeline — the contractual part — is embedded in full. -/

namespace Extractor

/-- `IntelligenceStore.PHONE_PATTERNS`, verbatim -/
def PHONE_PATTERNS : List String := [
  "\\+91[\\s\\-]?[6-9]\\d\x7b9\x7d\\b",
  "\\+91[\\s\\-]?[6-9]\\d\x7b4\x7d[\\s\\-]\\d\x7b5\x7d",
  "\\+91[\\s\\-]?[6-9]\\d\x7b2\x7d[\\s\\-]\\d\x7b3\x7d[\\s\\-]\\d\x7b4\x7d",
  "\\(\\+91\\)[\\s\\-]?[6-9]\\d\x7b9\x7d",
  "\\+91[\\s\\-]?\\([6-9]\\d\x7b2\x7d\\)[\\s\\-]?\\d\x7b3\x7d[\\s\\-]?\\d\x7b4\x7d",
  "\\b91[\\s\\-]?[6-9]\\d\x7b9\x7d\\b",
  "\\b91[\\s\\-]?[6-9]\\d\x7b4\x7d[\\s\\-]\\d\x7b5\x7d\\b",
  "\\b0[6-9]\\d\x7b9\x7d\\b",
  "\\b0[6-9]\\d\x7b4\x7d[\\s\\-]\\d\x7b5\x7d\\b",
  "\\b[6-9]\\d\x7b9\x7d\\b",
  "\\b[6-9]\\d\x7b4\x7d[\\s\\-]\\d\x7b5\x7d\\b",
  "\\b[6-9]\\d\x7b3\x7d[\\s\\-]\\d\x7b6\x7d\\b",
  "\\b[6-9]\\d\x7b2\x7d[\\s\\-]\\d\x7b3\x7d[\\s\\-]\\d\x7b4\x7d\\b",
  "\\b1800[\\s\\-]?\\d\x7b3\x7d[\\s\\-]?\\d\x7b4,5\x7d\\b",
  "\\b1860[\\s\\-]?\\d\x7b3\x7d[\\s\\-]?\\d\x7b4,5\x7d\\b",
  "\\b0\\d\x7b2,4\x7d[\\s\\-]?\\d\x7b6,8\x7d\\b",
  "\\bwa\\.me/(\\+?91)?[6-9]\\d\x7b9\x7d\\b",
  "\\b[6-9]\\s\\d\\s\\d\\s\\d\\s\\d\\s\\d\\s\\d\\s\\d\\s\\d\\s\\d\\b",
  "(?:call|phone|mobile|contact|whatsapp|number|no|reach)\\s*(?:me\\s*)?(?:at|on|:|\\-)?\\s*(?:\\+?91[\\s\\-]?)?([6-9]\\d\x7b9\x7d)",
  "(?:call|phone|mobile|contact|whatsapp|number|no|reach)\\s*(?:me\\s*)?(?:at|on|:|\\-)?\\s*(?:\\+?91[\\s\\-]?)?([6-9]\\d\x7b4\x7d[\\s\\-]\\d\x7b5\x7d)"]

/-- `IntelligenceStore.BANK_ACCOUNT_PATTERN`. -/
def BANK_ACCOUNT_PATTERN : String := "\\b\\d\x7b9,18\x7d\\b"

/-- `IntelligenceStore.CONTEXTUAL_BANK_PATTERNS`, verbatim -/
def CONTEXTUAL_BANK_PATTERNS : List String := [
  "(?:account|a/c|acct|acc)\\s*(?:no|number|num|#)?[\\s:.#\\-]*(\\d\x7b6,18\x7d)",
  "(?:bank\\s*(?:account|a/c))\\s*(?:no|number|num|#)?[\\s:.#\\-]*(\\d\x7b6,18\x7d)",
  "(?:transfer\\s*to|deposit\\s*to|send\\s*to|credit\\s*to)\\s*(?:account\\s*)?(\\d\x7b9,18\x7d)",
  "(?:beneficiary|payee|receiver)\\s*(?:account|a/c)?\\s*(?:no|number)?[\\s:.#\\-]*(\\d\x7b9,18\x7d)",
  "(?:savings?|current|fixed\\s*deposit|fd)\\s*(?:account|a/c)\\s*(?:no|number)?[\\s:.#\\-]*(\\d\x7b9,18\x7d)",
  "(?:account\\s*(?:holder|name|details))\\s*.\x7b0,30\x7d(\\d\x7b9,18\x7d)"]

/-- One `re.finditer` match as `_extract_phones` consumes it: `group(0)`
plus the first capture group (`none` when the pattern has no groups or
the group did not participate in the match). -/
structure RawMatch where
  group0 : String
  group1 : Option String
deriving DecidableEq

/-- `re.finditer(pattern, text)` over one fixed text. -/
abbrev FindOracle := String → List RawMatch

/-- `re.findall(pattern, text)` over one fixed text (the single capture
group, or the whole match for group-free patterns). -/
abbrev FindAllOracle := String → List String

/-- The character class of `re.sub(r'[\s\-+()wa\.me/]', '', raw)`:
whitespace plus the literal characters `- + ( ) w a . m e /`. -/
def isPhoneStrip (c : Char) : Bool :=
  isSpaceChar c || c == '-' || c == '+' || c == '(' || c == ')' ||
    c == 'w' || c == 'a' || c == '.' || c == 'm' || c == 'e' || c == '/'

/-- `re.sub(r'[\s\-+()wa\.me/]', '', raw)`. -/
def stripPhone (s : String) : String :=
  ⟨s.data.filter (fun c => !(isPhoneStrip c))⟩

/-- `raw = match.group(0).strip()`, overridden by `groups[0].strip()` when
the pattern has a truthy first capture group. -/
def rawOf (m : RawMatch) : String :=
  match m.group1 with
  | some g => if g == "" then pyStrip m.group0 else pyStrip g
  | none => pyStrip m.group0

/-- The country-code prefix stripping of `_extract_phones`:
`91…` of length 12 loses `91`; `0…` of length 11 loses `0`. -/
def stripCountryCode (cleaned : String) : String :=
  if leadMatch "91".data cleaned.data && cleaned.data.length == 12 then
    ⟨cleaned.data.drop 2⟩
  else if leadMatch "0".data cleaned.data && cleaned.data.length == 11 then
    ⟨cleaned.data.drop 1⟩
  else cleaned

/-- `c in '6789'`. -/
def isMobileDigit (c : Char) : Bool :=
  c == '6' || c == '7' || c == '8' || c == '9'

/-- `len(cleaned) == 10 and cleaned[0] in '6789'`. -/
def isValidMobile (cleaned : String) : Bool :=
  cleaned.data.length == 10 &&
    (match cleaned.data with
     | c :: _ => isMobileDigit c
     | [] => false)

/-- The body of the `for match_obj in re.finditer(...)` loop of
`_extract_phones`: canonicalize and add the `+91XXXXXXXXXX` form, then
add toll-free numbers verbatim. -/
def phoneStep (store : List String) (m : RawMatch) : List String :=
  let cleaned := stripCountryCode (stripPhone (rawOf m))
  let store1 :=
    if isValidMobile cleaned then insertNew store ("+91" ++ cleaned)
    else store
  if leadMatch "1800".data cleaned.data || leadMatch "1860".data cleaned.data then
    insertNew store1 cleaned
  else store1

/-- `IntelligenceStore._extract_phones` on one text, given the finditer
oracle for that text; returns the updated `phoneNumbers` set. -/
def extractPhones (find : FindOracle) (store : List String) : List String :=
  PHONE_PATTERNS.foldl (fun st pat => (find pat).foldl phoneStep st) store

/-- The canonical mobile value `phoneStep` inserts for a match, when the
cleaned digits form a valid 10-digit mobile. -/
def phoneCanonical (m : RawMatch) : Option String :=
  let cleaned := stripCountryCode (stripPhone (rawOf m))
  if isValidMobile cleaned then some ("+91" ++ cleaned) else none

/-- Hand-evaluated `re.finditer` results of the phone corpus over the text
"9876543210": only the bare-mobile pattern matches (no `91`/`0` prefix,
no separators, no contextual keyword is present). -/
def findFmt1 : FindOracle := fun pat =>
  if pat == "\\b[6-9]\\d\x7b9\x7d\\b" then [⟨"9876543210", none⟩] else []

/-- Hand-evaluated `re.finditer` results over "+91 98765 43210": the
`+91`-spaced pattern matches the whole text, and (word boundaries falling
after `+` and before `9`) the bare `91`-prefixed and bare spaced-mobile
patterns match the respective suffixes.  No other pattern matches: the
ten digits are interrupted by a space, there is no `0` prefix, and no
contextual keyword is present. -/
def findFmt2 : FindOracle := fun pat =>
  if pat == "\\+91[\\s\\-]?[6-9]\\d\x7b4\x7d[\\s\\-]\\d\x7b5\x7d" then
    [⟨"+91 98765 43210", none⟩]
  else if pat == "\\b91[\\s\\-]?[6-9]\\d\x7b4\x7d[\\s\\-]\\d\x7b5\x7d\\b" then
    [⟨"91 98765 43210", none⟩]
  else if pat == "\\b[6-9]\\d\x7b4\x7d[\\s\\-]\\d\x7b5\x7d\\b" then
    [⟨"98765 43210", none⟩]
  else []

/-- Hand-evaluated `re.finditer` results over "098765-43210": only the
`0`-prefixed dashed-mobile pattern matches (the digit run after `0` has no
word boundary before `9`, and the landline pattern cannot place its
optional separator on the dash). -/
def findFmt3 : FindOracle := fun pat =>
  if pat == "\\b0[6-9]\\d\x7b4\x7d[\\s\\-]\\d\x7b5\x7d\\b" then
    [⟨"098765-43210", none⟩]
  else []

/-- The session's `phoneNumbers` set after extracting the same number in
the three surface formats of scenario S4. -/
def s4PhoneNumbers : List String :=
  extractPhones findFmt3 (extractPhones findFmt2 (extractPhones findFmt1 []))

/-- The ASCII digit class (`\d` over the digit runs the bank patterns
match). -/
def isDigitChar (c : Char) : Bool := decide (48 ≤ c.toNat ∧ c.toNat ≤ 57)

/-- All characters are ASCII digits — true of every match of
`\b\d{9,18}\b`, which is the hypothesis under which the bare-strategy
rejection theorem is stated. -/
def allDigits (s : String) : Bool := s.data.all isDigitChar

/-- `CanonicalNormalizer.normalize_bank_account`: strip whitespace and
dashes. -/
def normalizeBankAccount (s : String) : String :=
  ⟨s.data.filter (fun c => !(isSpaceChar c || c == '-'))⟩

/-- `n == 10 and match[0] in '6789'` — the phone-like rejection test. -/
def phoneLike (m : String) : Bool :=
  m.data.length == 10 &&
    (match m.data with
     | c :: _ => isMobileDigit c
     | [] => false)

/-- `n == 4 and match.startswith('20')` — the year rejection test. -/
def yearLike (m : String) : Bool :=
  m.data.length == 4 && leadMatch "20".data m.data

/-- The body of the strategy-1 loop of `_extract_bank_accounts` (bare
9–18-digit runs); the 12-digit Aadhaar branch is a `pass` and is elided. -/
def bankBareStep (store : List String) (m : String) : List String :=
  let n := m.data.length
  if n < 9 ∨ 18 < n then store
  else if phoneLike m then store
  else if yearLike m then store
  else insertNew store (normalizeBankAccount m)

/-- The body of the strategy-2 loop of `_extract_bank_accounts`
(contextual keyword-adjacent capture): only a 6–18 length check guards
the insertion. -/
def bankContextStep (store : List String) (m : String) : List String :=
  if 6 ≤ m.data.length ∧ m.data.length ≤ 18 then
    insertNew store (normalizeBankAccount m)
  else store

/-- `IntelligenceStore._extract_bank_accounts` on one text, given the
findall oracle for that text. -/
def extractBankAccounts (find : FindAllOracle) (store : List String) :
    List String :=
  let store1 := (find BANK_ACCOUNT_PATTERN).foldl bankBareStep store
  CONTEXTUAL_BANK_PATTERNS.foldl
    (fun st pat => (find pat).foldl bankContextStep st) store1

/-- Hand-evaluated `re.findall` results over "account 9876543210": the
bare pattern finds the ten-digit run, and contextual pattern 1
(`account … (\d{6,18})`) captures it; the other contextual patterns lack
their keywords (`bank`, `transfer to`, `beneficiary`, `savings`,
`account holder`). -/
def cexBankFind : FindAllOracle := fun pat =>
  if pat == BANK_ACCOUNT_PATTERN then ["9876543210"]
  else if pat ==
      "(?:account|a/c|acct|acc)\\s*(?:no|number|num|#)?[\\s:.#\\-]*(\\d\x7b6,18\x7d)" then
    ["9876543210"]
  else []

end Extractor


/-! ## `src/conversation_quality.py` — `ConversationQualityTracker`

Template pools are embedded verbatim.  The random draws of
`generate_probing_response` are explicit index parameters, and the
tracker's per-session mutable state (metrics plus the used-template index
set) is threaded explicitly. -/

namespace Quality

/-- `conversation_quality.INVESTIGATIVE_TEMPLATES` -/
def INVESTIGATIVE_TEMPLATES : List String := [
  "Can you please tell me your company name and official registration number?",
  "What is your full name and employee ID? I need it for my records.",
  "Which department are you calling from? What is the department code?",
  "Can you give me a callback number and your direct extension?",
  "What is your official website address? I want to verify online.",
  "Please share your office address and branch location.",
  "What is the case reference ID or complaint number for this matter?",
  "Can you tell me the IFSC code of your branch?",
  "What is the order number or policy number you are referring to?",
  "Who is your supervisor? Can you give me their contact details?",
  "What is the official toll-free number I can use to verify this call?",
  "Can you send me this information on your official letterhead by email?",
  "What is your badge number or official designation?",
  "Which branch manager can I speak to for confirmation?",
  "What is the registration number of your organization?",
  "Can you provide the official case file number?",
  "I need your employee ID and department name for my notes.",
  "What is the tracking ID or reference number for this request?",
  "Can you share your official email ID? I\x27ll send a written request.",
  "What is the complaint reference number assigned to my case?",
  "What\x27s your team\x27s email address? I want to verify with your office.",
  "Which department are you from exactly? What is the full department name?",
  "Could you share your license ID or official government identification number?",
  "Please tell me your direct supervisor\x27s phone number and name.",
  "Can you confirm the name of your organisation and its headquarters location?",
  "What is the exact case number you mentioned? Please spell it out for me.",
  "Could you give me the reference ID for this complaint? I want to track it.",
  "What government ministry issued this notice? What is the notice number?",
  "Please share the official helpline I can use to confirm your identity.",
  "What is your jurisdiction code or posting location?",
  "Could you spell out the policy number and the issuing authority for me?",
  "What is the transaction reference number you are currently investigating?"]

/-- `conversation_quality.RED_FLAG_TEMPLATES` (category to cautious phrasings) -/
def RED_FLAG_TEMPLATES : List (String × List String) := [
  ("urgency", [
    "I notice you\x27re creating urgency, which makes me a bit uncomfortable.",
    "This urgency feels concerning to me. Let me take my time.",
    "Why is there such a rush? Legitimate matters don\x27t require such pressure.",
    "The time pressure is making me anxious. Can we slow down?"]),
  ("otp_request", [
    "I notice you\x27re asking for OTP which is usually confidential. My bank says never share it.",
    "OTP requests concern me. Banks always say not to share these codes.",
    "Why would I need to share my OTP? That seems unusual.",
    "My son told me OTPs should never be shared with anyone."]),
  ("payment_request", [
    "This payment request seems unusual. Why do I need to pay first?",
    "Processing fees before receiving anything doesn\x27t sound right to me.",
    "Why should I transfer money for this? Real organizations don\x27t ask like this.",
    "Payment demands make me suspicious. Let me verify first."]),
  ("authority_impersonation", [
    "You\x27re claiming to be from a government agency, but how can I verify?",
    "This sounds official, but I\x27ve heard scammers impersonate authorities.",
    "I want to verify your identity with the actual department first.",
    "Let me call the official number to confirm you work there."]),
  ("suspension", [
    "Account blocking threats seem excessive. Is this really necessary?",
    "This suspension warning feels like pressure tactics to me.",
    "My bank has never threatened me like this before.",
    "Let me visit the branch to verify this account issue."]),
  ("legal_threat", [
    "Legal threats over the phone concern me. Can you send an official notice?",
    "Arrest threats seem extreme. My lawyer would advise differently.",
    "I\x27ve never heard of digital arrest. This sounds concerning.",
    "Real legal matters come through proper mail, not phone calls."]),
  ("suspicious_url", [
    "This link doesn\x27t look like an official website to me.",
    "I\x27m hesitant to click unknown links. Can you provide official documentation?",
    "The domain looks suspicious. Real organizations use proper websites.",
    "My son warned me about clicking links from unknown callers."]),
  ("emotional_pressure", [
    "I feel like you\x27re trying to scare me. Please explain calmly.",
    "This emotional pressure is making me uncomfortable.",
    "Let me take a moment to calm down before proceeding.",
    "Why are you making this sound so frightening?"]),
  ("courier", [
    "I haven\x27t ordered anything that would require customs clearance.",
    "Parcel with drugs sounds like a scam I\x27ve heard about.",
    "Why would illegal items be addressed to me? This seems wrong.",
    "Let me check with the actual courier company first."]),
  ("tech_support", [
    "Unsolicited tech support calls are often scams. How do I verify you?",
    "Microsoft doesn\x27t usually call people directly about viruses.",
    "Remote access requests make me very nervous.",
    "My grandson said never to let strangers access my computer."]),
  ("job_fraud", [
    "Work from home with high pay sounds too good to be true.",
    "Training fees for jobs don\x27t seem right. Real companies pay you.",
    "This job offer sounds suspicious. Can you send an official letter?",
    "Telegram jobs often turn out to be scams, I\x27ve heard."]),
  ("investment", [
    "Guaranteed returns sound unrealistic. Every investment has risk.",
    "Double money schemes remind me of fraud warnings I\x27ve seen.",
    "My financial advisor says such returns are impossible legally.",
    "This sounds like the schemes that people get cheated by."]),
  ("identity_theft", [
    "Why do you need my Aadhaar number? It\x27s very personal.",
    "Document requests over phone make me uncomfortable.",
    "I\x27ve been warned about sharing ID proofs with strangers.",
    "Let me verify with the department before sharing any documents."]),
  ("phishing", [
    "This link doesn\x27t look genuine to me. Why isn\x27t it an official domain?",
    "I\x27m worried about entering my details on an unknown website.",
    "That URL looks suspicious. Real banks don\x27t send such links.",
    "My son told me never to click links from unknown callers."]),
  ("fees", [
    "Why would I need to pay a fee to receive something I\x27m owed?",
    "Processing charges before a refund are a classic fraud tactic.",
    "Real government bodies do not collect money over phone calls.",
    "This demand for advance payment is making me very suspicious."]),
  ("impersonation", [
    "You sound very official but I cannot verify you are who you claim.",
    "Real officers send written notices first before calling.",
    "I have heard of many people being cheated by fake officials.",
    "Let me call the official number of your department to confirm."])]

/-- `conversation_quality.ELICITATION_TEMPLATES` -/
def ELICITATION_TEMPLATES : List String := [
  "What account should I transfer to? Give me all the details slowly.",
  "I need your UPI ID, phone number, and the exact amount.",
  "Spell out the account number for me. Also give me the IFSC code.",
  "What is the beneficiary name and bank branch?",
  "Tell me the exact UPI ID letter by letter. I\x27m writing it down.",
  "Give me your direct contact number in case we get disconnected.",
  "What email should I send the documents to? And your phone number?",
  "I have my banking app open. What are the complete transfer details?",
  "Give me the reference number, amount, and where to send the payment.",
  "What phone number will the OTP come from? And your callback number?",
  "Please share the IFSC code again \u2014 I didn\x27t catch it properly.",
  "Give me the exact UPI ID once more so I can double-check it.",
  "What is the account holder\x27s full name as registered with the bank?",
  "Tell me the complete bank details: account number, IFSC, and branch.",
  "Repeat the UPI address letter by letter \u2014 I need to enter it carefully.",
  "What is the exact amount I need to send? Please confirm the figure.",
  "Give me the case ID or reference number I should quote for this payment.",
  "What is the policy number associated with this claim?",
  "Tell me the order ID or transaction reference again for my records.",
  "What is your registered mobile number on this account?"]

/-- `conversation_quality._INTEL_KEYWORDS` (intel class to ask keywords) -/
def INTEL_KEYWORDS : List (String × List String) := [
  ("phoneNumbers", [
    "phone number",
    "phone",
    "contact number",
    "mobile number",
    "callback number",
    "direct number",
    "registered mobile"]),
  ("upiIds", [
    "upi id",
    "upi",
    "upi address"]),
  ("bankAccounts", [
    "account number",
    "ifsc",
    "bank account",
    "bank details",
    "beneficiary",
    "bank branch"]),
  ("emailAddresses", [
    "email"])]

/-- `ConversationQualityTracker._COMPOUND_CONNECTORS` -/
def COMPOUND_CONNECTORS : List String := [
  " Also, ",
  " And one more thing \u2014 ",
  " By the way, ",
  " While we are on this, ",
  " Oh and also, ",
  " Before I forget \u2014 "]

/-- `ConversationQualityTracker._map_signal_to_redflag` mapping -/
def SIGNAL_TO_REDFLAG : List (String × String) := [
  ("urgency", "urgency"),
  ("authority_impersonation", "authority_impersonation"),
  ("otp_request", "otp_request"),
  ("payment_request", "payment_request"),
  ("account_suspension", "suspension"),
  ("prize_lure", "payment_request"),
  ("suspicious_url", "suspicious_url"),
  ("emotional_pressure", "emotional_pressure"),
  ("legal_threat", "legal_threat"),
  ("courier", "courier"),
  ("tech_support", "tech_support"),
  ("job_fraud", "job_fraud"),
  ("investment", "investment"),
  ("identity_theft", "identity_theft"),
  ("upi_specific", "payment_request"),
  ("loan_fraud", "fees"),
  ("insurance_fraud", "fees"),
  ("romance_scam", "emotional_pressure"),
  ("phishing", "phishing"),
  ("impersonation", "impersonation")]

/-- `QualityMetrics` (dataclass). -/
structure QualityMetrics where
  turnCount : Nat
  questionsAsked : Nat
  investigativeQuestions : Nat
  redFlagsIdentified : List String
  elicitationAttempts : Nat
  probingStageActive : Bool
deriving DecidableEq

/-- The dataclass defaults. -/
def initialMetrics : QualityMetrics := ⟨0, 0, 0, [], 0, false⟩

/-- `ConversationQualityTracker.MIN_TURN_COUNT`. -/
def MIN_TURN_COUNT : Nat := 8

/-- `MIN_QUESTIONS_ASKED`. -/
def MIN_QUESTIONS_ASKED : Nat := 5

/-- `MIN_INVESTIGATIVE_QUESTIONS`. -/
def MIN_INVESTIGATIVE_QUESTIONS : Nat := 3

/-- `MIN_RED_FLAGS`. -/
def MIN_RED_FLAGS : Nat := 5

/-- `MIN_ELICITATION_ATTEMPTS`. -/
def MIN_ELICITATION_ATTEMPTS : Nat := 5

/-- `thresholds_met`. -/
def thresholdsMet (m : QualityMetrics) : Bool :=
  decide (MIN_TURN_COUNT ≤ m.turnCount) &&
    decide (MIN_QUESTIONS_ASKED ≤ m.questionsAsked) &&
    decide (MIN_INVESTIGATIVE_QUESTIONS ≤ m.investigativeQuestions) &&
    decide (MIN_RED_FLAGS ≤ m.redFlagsIdentified.length) &&
    decide (MIN_ELICITATION_ATTEMPTS ≤ m.elicitationAttempts)

/-- `get_missing_thresholds`: the per-metric deficits, in the source's
insertion order. -/
def getMissingThresholds (m : QualityMetrics) : List (String × Nat) :=
  (if m.turnCount < MIN_TURN_COUNT then
    [("turns", MIN_TURN_COUNT - m.turnCount)] else []) ++
  (if m.questionsAsked < MIN_QUESTIONS_ASKED then
    [("questions", MIN_QUESTIONS_ASKED - m.questionsAsked)] else []) ++
  (if m.investigativeQuestions < MIN_INVESTIGATIVE_QUESTIONS then
    [("investigative",
      MIN_INVESTIGATIVE_QUESTIONS - m.investigativeQuestions)] else []) ++
  (if m.redFlagsIdentified.length < MIN_RED_FLAGS then
    [("red_flags", MIN_RED_FLAGS - m.redFlagsIdentified.length)] else []) ++
  (if m.elicitationAttempts < MIN_ELICITATION_ATTEMPTS then
    [("elicitation",
      MIN_ELICITATION_ATTEMPTS - m.elicitationAttempts)] else [])

/-- `record_question`: count a question iff the response holds a `?`. -/
def recordQuestion (m : QualityMetrics) (response : String) : QualityMetrics :=
  if containsTok response "?" then
    { m with questionsAsked := m.questionsAsked + 1 }
  else m

/-- `record_investigative_question`. -/
def recordInvestigative (m : QualityMetrics) : QualityMetrics :=
  { m with investigativeQuestions := m.investigativeQuestions + 1 }

/-- `record_red_flag` (set insertion). -/
def recordRedFlag (m : QualityMetrics) (flagType : String) : QualityMetrics :=
  { m with redFlagsIdentified := insertNew m.redFlagsIdentified flagType }

/-- `record_elicitation`. -/
def recordElicitation (m : QualityMetrics) : QualityMetrics :=
  { m with elicitationAttempts := m.elicitationAttempts + 1 }

/-- Truthiness of the session's intel dict per identifier class (only the
four classes `_INTEL_KEYWORDS` mentions matter to the tracker). -/
structure IntelFlags where
  phoneNumbers : Bool
  upiIds : Bool
  bankAccounts : Bool
  emailAddresses : Bool
deriving DecidableEq

/-- `intel.get(intel_key)` truthiness. -/
def intelFlag (intel : IntelFlags) (key : String) : Bool :=
  if key == "phoneNumbers" then intel.phoneNumbers
  else if key == "upiIds" then intel.upiIds
  else if key == "bankAccounts" then intel.bankAccounts
  else if key == "emailAddresses" then intel.emailAddresses
  else false

/-- The exclusion keyword set built inside `_filter_templates_by_intel`. -/
def excludeKeywords (intel : IntelFlags) : List String :=
  INTEL_KEYWORDS.foldl
    (fun acc kv =>
      if intelFlag intel kv.1 then acc ++ kv.2.map lowerStr else acc) []

/-- `_filter_templates_by_intel`. -/
def filterTemplatesByIntel (templates : List String)
    (intel : Option IntelFlags) : List String :=
  match intel with
  | none => templates
  | some flags =>
    let exclude := excludeKeywords flags
    if exclude.isEmpty then templates
    else
      let filtered := templates.filter
        (fun t => !(exclude.any (fun kw => containsTok (lowerStr t) kw)))
      if filtered.isEmpty then templates else filtered

/-- `_map_signal_to_redflag`: the mapping dict with default `"urgency"`. -/
def mapSignalToRedflag (signal : String) : String :=
  match List.lookup signal SIGNAL_TO_REDFLAG with
  | some v => v
  | none => "urgency"

/-- `_get_unused_template`: pick an unused template (recording its index),
or any template if all are used. -/
def getUnusedTemplate (templates : List String) (used : List Nat)
    (choice : Nat) : String × List Nat :=
  let available := (enumFromIdx 0 templates).filter
    (fun it => decide (it.1 ∉ used))
  if available.isEmpty then (pickAt templates choice, used)
  else
    let it := pickPairAt available choice
    (it.2, used ++ [it.1])

/-- The random draws `generate_probing_response` and
`_build_compound_probe` can make, one index parameter each. -/
structure ProbeChoices where
  signalChoice : Nat
  redflagChoice : Nat
  invChoice : Nat
  elicChoice : Nat
  connChoice1 : Nat
  connChoice2 : Nat
deriving DecidableEq

/-- Part A of `_build_compound_probe`: the red-flag sentence and its
recorded flag key, when the red-flag gap applies and an unreferenced
detected signal maps to a template category. -/
def compoundPartA (m : QualityMetrics) (missing : List (String × Nat))
    (detectedSignals : List String) (ch : ProbeChoices) :
    Option (String × String) :=
  if 0 < ((List.lookup "red_flags" missing).getD 0) ∧ detectedSignals ≠ [] then
    let unreferenced := detectedSignals.filter
      (fun s => decide (s ∉ m.redFlagsIdentified))
    if unreferenced ≠ [] then
      let signal := pickAt unreferenced ch.signalChoice
      let signalKey := mapSignalToRedflag signal
      match List.lookup signalKey RED_FLAG_TEMPLATES with
      | some templates => some (pickAt templates ch.redflagChoice, signalKey)
      | none => none
    else none
  else none

/-- The `parts` list of `_build_compound_probe` together with the metrics
and used-index updates its construction performs. -/
def compoundParts (m : QualityMetrics) (missing : List (String × Nat))
    (detectedSignals : List String) (stage : Nat) (used : List Nat)
    (intel : Option IntelFlags) (ch : ProbeChoices) :
    List String × QualityMetrics × List Nat :=
  let filteredElicitation := filterTemplatesByIntel ELICITATION_TEMPLATES intel
  let partA := compoundPartA m missing detectedSignals ch
  let mA := match partA with
    | some sk => recordRedFlag m sk.2
    | none => m
  let partsA : List String := match partA with
    | some sk => [sk.1]
    | none => []
  let stateB :=
    if 0 < ((List.lookup "investigative" missing).getD 0) then
      let gu := getUnusedTemplate INVESTIGATIVE_TEMPLATES used ch.invChoice
      (partsA ++ [gu.1], recordInvestigative mA, gu.2)
    else (partsA, mA, used)
  if 0 < ((List.lookup "elicitation" missing).getD 0) ∧ 2 ≤ stage then
    let gu := getUnusedTemplate filteredElicitation stateB.2.2 ch.elicChoice
    (stateB.1 ++ [gu.1], recordElicitation stateB.2.1, gu.2)
  else stateB

/-- The connector stitching of `_build_compound_probe` (the parts list
never exceeds three entries, one per gap). -/
def stitchResponse (parts : List String) (ch : ProbeChoices) : String :=
  match parts with
  | [] => ""
  | p0 :: restParts =>
    match restParts with
    | [] => p0
    | e1 :: rest2 =>
      let r1 := p0 ++ pickAt COMPOUND_CONNECTORS ch.connChoice1 ++
        lowerFirst e1
      match rest2 with
      | [] => r1
      | e2 :: _ =>
        r1 ++ pickAt COMPOUND_CONNECTORS ch.connChoice2 ++ lowerFirst e2

/-- `_build_compound_probe`: up to three gap-filling sentences stitched
with natural connectors; returns (response, metrics, used indices). -/
def buildCompoundProbe (m : QualityMetrics) (missing : List (String × Nat))
    (detectedSignals : List String) (stage : Nat) (used : List Nat)
    (intel : Option IntelFlags) (ch : ProbeChoices) :
    String × QualityMetrics × List Nat :=
  let pc := compoundParts m missing detectedSignals stage used intel ch
  match pc.1 with
  | [] =>
    let gu := getUnusedTemplate INVESTIGATIVE_TEMPLATES pc.2.2 ch.invChoice
    (gu.1, recordQuestion (recordInvestigative pc.2.1) gu.1, gu.2)
  | _ :: _ =>
    let response := stitchResponse pc.1 ch
    (response, recordQuestion pc.2.1 response, pc.2.2)

/-- `generate_probing_response`: `none` when no threshold is missing, else
a compound (under quality urgency) or single-purpose probing string. -/
def generateProbingResponse (m : QualityMetrics) (used : List Nat)
    (detectedSignals : List String) (stage : Nat) (intel : Option IntelFlags)
    (ch : ProbeChoices) : Option String × QualityMetrics × List Nat :=
  let missing := getMissingThresholds m
  if missing.isEmpty then (none, m, used)
  else
    let m1 := { m with probingStageActive := true }
    let categoriesMissing := missing.length -
      (if (List.lookup "turns" missing).isSome then 1 else 0)
    let urgency := 2 ≤ categoriesMissing ∧ MIN_TURN_COUNT / 2 ≤ m1.turnCount
    let filteredElicitation := filterTemplatesByIntel ELICITATION_TEMPLATES intel
    if urgency then
      let b := buildCompoundProbe m1 missing detectedSignals stage used intel ch
      (some b.1, b.2.1, b.2.2)
    else if 0 < ((List.lookup "investigative" missing).getD 0) then
      let gu := getUnusedTemplate INVESTIGATIVE_TEMPLATES used ch.invChoice
      (some gu.1, recordQuestion (recordInvestigative m1) gu.1, gu.2)
    else
      let branch2 : Option (List String × String) :=
        if 0 < ((List.lookup "red_flags" missing).getD 0) ∧
            detectedSignals ≠ [] then
          let unreferenced := detectedSignals.filter
            (fun s => decide (s ∉ m1.redFlagsIdentified))
          if unreferenced ≠ [] then
            let signal := pickAt unreferenced ch.signalChoice
            let signalKey := mapSignalToRedflag signal
            match List.lookup signalKey RED_FLAG_TEMPLATES with
            | some templates => some (templates, signalKey)
            | none => none
          else none
        else none
      match branch2 with
      | some tk =>
        let resp := pickAt tk.1 ch.redflagChoice
        (some resp, recordQuestion (recordRedFlag m1 tk.2) resp, used)
      | none =>
        if 0 < ((List.lookup "elicitation" missing).getD 0) ∧ 3 ≤ stage then
          let gu := getUnusedTemplate filteredElicitation used ch.elicChoice
          (some gu.1, recordQuestion (recordElicitation m1) gu.1, gu.2)
        else
          let gu := getUnusedTemplate INVESTIGATIVE_TEMPLATES used ch.invChoice
          (some gu.1, recordQuestion (recordInvestigative m1) gu.1, gu.2)

end Quality

/-! ## `app/agent.py` — `EngagementController`

The response pools are embedded verbatim.  In this tree the
`app.engagement_ml` import fails, so `get_reply` always selects through
`_pick_non_repeat`; the random draws (`random.random()` threshold tests
and `random.choice` picks) are explicit boolean / index parameters. -/

namespace Agent

/-- `EngagementController.STAGE_1` pool, verbatim -/
def STAGE_1 : List String := [
  "Hello? I don\x27t think we\x27ve spoken before. Who is this?",
  "Ji? Kaun bol raha hai? I don\x27t recognise this number.",
  "Hello, may I know who\x27s calling please?",
  "Sorry, I didn\x27t catch that. Who is this speaking?",
  "Good day. Can you please introduce yourself?",
  "Yes, hello? Who am I speaking with?",
  "Namaste. Aap kaun? I wasn\x27t expecting any calls.",
  "Hello, this is unexpected. May I know who you are?",
  "Ji boliye? I don\x27t have this number saved.",
  "Hello? Is this a business call? Please identify yourself first.",
  "Haan ji? Who is calling?",
  "Sorry, I think you may have the wrong number. Who are you looking for?",
  "I\x27m a bit confused. Can you tell me what this is regarding?",
  "Who gave you my number? I don\x27t usually get calls like this.",
  "This sounds suspicious. I don\x27t usually get such calls. Give me your phone number.",
  "I\x27m worried this might be fraud. My son warned me about scam calls. Who is this?",
  "This doesn\x27t sound right. Real officials don\x27t call like this. What is your employee ID?",
  "I\x27m concerned and nervous about this call. Give me your contact number to verify."]

/-- `EngagementController.STAGE_2` pool, verbatim -/
def STAGE_2 : List String := [
  "How do I know this is legitimate? Can you give me your employee ID and callback number?",
  "I need to verify this. What is your official email address and employee ID number?",
  "Can you give me a reference number and your direct phone number? I want to check with the main office.",
  "This doesn\x27t sound right. What is your official contact number and department name?",
  "Can you send me an official email first? What email address should I expect it from?",
  "Before I do anything, please share your full name, ID number, and official contact details.",
  "My son warned me about calls like these. Give me your supervisor\x27s name and phone number.",
  "What is your official designation and employee ID? I want to note it down.",
  "Can you send this on official letterhead? What is the email address and reference number?",
  "Let me verify \u2014 what is your organisation\x27s toll-free number and your direct extension?",
  "Please provide your department name, employee ID, and a reference number for my records.",
  "Is there a website link you can share? I want to verify this online.",
  "Which branch or department are you calling from? Give me the phone number and address.",
  "Can you spell your full name and provide your contact number? I want to verify with your office.",
  "This sounds suspicious to me. My bank never calls like this. Can you verify yourself?",
  "I\x27m worried this might be a scam. Let me first verify your identity.",
  "This doesn\x27t sound right. Real organizations don\x27t pressure like this.",
  "I\x27m concerned about fraud. Can you give me your official verification details?"]

/-- `EngagementController.STAGE_3` pool, verbatim -/
def STAGE_3 : List String := [
  "Oh no, this sounds serious. But I\x27m not sure what to do.",
  "You\x27re worrying me now. Let me think for a moment.",
  "I\x27m concerned but I don\x27t want to do anything hasty without checking.",
  "Please don\x27t rush me. My blood pressure goes up when I get stressed.",
  "Wait, let me call my son first. He knows about these things.",
  "I\x27m a senior citizen, I don\x27t understand all this. Please be patient.",
  "This is making me anxious. Can you explain once more slowly?",
  "My neighbour got a similar call. She said it was not real. Are you sure?",
  "I want to cooperate but I\x27m scared of doing something wrong.",
  "Let me sit down first. My hands are shaking. Now tell me again.",
  "I trust the government but this call is making me nervous.",
  "Can I call you back after discussing with my family?",
  "One minute, someone is at the door. Don\x27t disconnect, I\x27ll be right back.",
  "Hold on, my phone battery is very low. Let me put it on charging.",
  "This urgency is making me suspicious. Why the rush?",
  "I\x27m worried this could be a fraud. My son warned me about such calls.",
  "This doesn\x27t sound right to me. Real banks don\x27t call like this.",
  "I\x27m very uncomfortable with this pressure. Let me verify first."]

/-- `EngagementController.STAGE_4` pool, verbatim -/
def STAGE_4 : List String := [
  "Okay, I believe you. Give me your direct callback number and employee ID so I can reach you.",
  "Fine, I\x27ll cooperate. What department ID and reference number should I keep for my records?",
  "Alright sir, tell me what to do. What is the case reference number and your contact phone number?",
  "I\x27m ready to help. Give me the official branch name, address, and contact number please.",
  "Okay okay, I\x27ll do it. Tell me your phone number, email, and reference ID for verification.",
  "I trust you now. For my records, give me your full name, badge number, and office phone.",
  "Sir, I want to cooperate fully. Can you resend that link and tell me the website address?",
  "I understand the urgency. Share the account details, UPI ID, and amount again please.",
  "Fine, I\x27ll proceed. Can you email me at what address? And give me yours also.",
  "Alright, let me note everything. What is the reference number, your contact, and department?",
  "Okay, I\x27m convinced. Give me the complaint number, your phone number, and supervisor\x27s contact.",
  "I\x27ll do whatever is needed. Which email should I write to? And what is your official phone number?",
  "I believe you are genuine. Share your official contact number, email, and department details.",
  "My son said I should always get documentation. Can you share your ID, phone, and receipt number?",
  "Could you tell me the policy number this case is linked to? I want to note it down.",
  "Please share the exact order ID or transaction reference so I can cross-check with my records.",
  "What case ID have you assigned to this complaint? I\x27ll keep it for future reference.",
  "I\x27m worried this could be fraud but I\x27ll verify first. Spell out the account number for me slowly.",
  "This sounds suspicious but let me note down. Give me the UPI ID and IFSC code for my records.",
  "My family warned me about scam calls. Tell me the beneficiary name and bank branch details.",
  "I\x27m nervous about this. Give me your contact number and email address so I can check with my son.",
  "This doesn\x27t sound right but I\x27ll cooperate. Share the account details and reference number slowly.",
  "I\x27m uncomfortable but will write this down. Tell me the phone number and case ID for my records."]

/-- `EngagementController.STAGE_5` pool, verbatim -/
def STAGE_5 : List String := [
  "Okay, I\x27m ready. What is the exact UPI ID, account holder name, and phone number to send to?",
  "Tell me the complete account number slowly. I am writing it down. Also give me the IFSC code.",
  "Which bank account should I transfer to? Give me account number, name, branch, and IFSC.",
  "What is the exact amount and where to send? Spell the UPI ID letter by letter for me.",
  "I have my banking app open. Give me the full account number, beneficiary name, and phone number.",
  "Should I send by UPI or bank transfer? Tell me the UPI ID and also the bank account details.",
  "I\x27m ready to pay. Give me the reference number, amount, UPI ID, and your contact number.",
  "What name will show when I transfer? I want to confirm. Also tell me your phone number.",
  "UPI is showing an error. Give me the bank account number, IFSC code, and account holder name.",
  "My app is asking for beneficiary details. Tell me account number, name, phone, and IFSC code.",
  "Give me complete details \u2014 account number, account holder name, bank name, branch, and IFSC.",
  "I\x27ll send right now. Repeat the UPI ID letter by letter and tell me your registered phone number.",
  "Okay, should I do it from my savings account? Tell me your UPI ID, bank account, and contact number.",
  "Let me try sending a small amount first. What\x27s the exact UPI ID and your WhatsApp number?",
  "Please share the IFSC code again \u2014 I didn\x27t hear it correctly the first time.",
  "Give me the exact UPI ID one more time. My app flagged it as unusual, so I need to re-enter.",
  "What is the precise amount I need to transfer? And what is the beneficiary\x27s registered mobile?",
  "I need your policy number and order ID to complete this transaction. Please share both.",
  "Let me write this down for my records. Spell out the account number and bank branch slowly.",
  "I\x27m noting down the details carefully. Give me the UPI ID, beneficiary name, and phone number.",
  "My son will verify first. Share the contact number, email address, and reference number.",
  "I need to note everything down. Tell me the case ID, account details, and IFSC code.",
  "Let me repeat to confirm. Spell the UPI ID slowly and share your contact details.",
  "For my records, give me the phone number, account number, and bank branch details."]

/-- `EngagementController.OTP_RESPONSES` pool, verbatim -/
def OTP_RESPONSES : List String := [
  "OTP? Wait, let me check my messages\u2026 I am getting so many SMS nowadays.",
  "My phone is very slow today. Let me close some apps and check for the OTP.",
  "The OTP says \x27do not share with anyone\x27. Should I still give it? That is confusing.",
  "It says the OTP expired already. Can you send a new one? These things expire so fast.",
  "I pressed the wrong button and the message got deleted. Can you resend it?",
  "I got 3 or 4 messages. Which one is the OTP? They all look the same to me.",
  "OTP has come but my phone is asking for fingerprint. I can never get that to work.",
  "My eyes are weak, the text is very small. Let me get my reading glasses first.",
  "My son changed my SIM last week. Maybe the OTP went to the old number?",
  "The screen went dim again. One second, let me increase the brightness.",
  "But my bank always says never share OTP with anyone. Why is this different?",
  "I am confused \u2014 is this the same OTP my bank sends for transactions?",
  "Which bank is this OTP from? I have accounts in SBI and also in PNB.",
  "OTP for what exactly? Is this for unblocking or for some transaction?",
  "I don\x27t understand these OTP things. My son usually handles all this.",
  "Please don\x27t rush me. My heart beats fast when people pressure me like this.",
  "I\x27m getting very anxious. Just give me one minute to collect myself.",
  "Sir, I am a 65-year-old retired person. These technical things confuse me.",
  "What is the reference number for this case? I want to write it down before I do anything.",
  "What department are you from again? I want to tell my son when he comes home.",
  "Can you tell me your employee ID? I want to note it for my records.",
  "What is the case number? I want to have proof of this conversation.",
  "Hold on, let me ask my neighbour. She works in a bank, she\x27ll know about this.",
  "Wait, my son is calling on the other phone. He might have got the OTP. One minute.",
  "Let me check WhatsApp also. Sometimes these codes come there instead.",
  "My OTP is not coming. Network is weak here. What number should I expect the SMS from?",
  "One thing \u2014 if the call drops, what number should I call you back on? Just in case.",
  "This sounds suspicious - my bank says never share OTP. Why is this different?",
  "I\x27m worried this might be fraud. Banks don\x27t usually ask for OTP over call.",
  "My son warned me about scam calls asking for OTP. How do I verify you\x27re real?",
  "Asking for OTP doesn\x27t sound right. Real officials don\x27t ask for this."]

/-- `EngagementController.ACCOUNT_RESPONSES` pool, verbatim -/
def ACCOUNT_RESPONSES : List String := [
  "Account number? Which one \u2014 savings or fixed deposit? I have both.",
  "Is it the number on the front of the passbook or the one on the cheque? They are different.",
  "My passbook shows two numbers. One is long and one is short. Which one?",
  "Debit card number or account number? Both are different, right?",
  "Let me open my net banking app\u2026 it takes time to load on my old phone.",
  "I don\x27t remember the full number. Let me go find my passbook, it\x27s in the cupboard.",
  "Wait, my passbook is in the locker. I need to find the key first.",
  "My son has the chequebook. He took it last week. Let me message him.",
  "I can give you the account number. But first, what is the reference ID for this case?",
  "Which bank branch are you calling from? I want to verify before sharing anything.",
  "What is your employee ID? My branch said I should always verify before sharing account details.",
  "Can you send me an email with the official request? I need it in writing.",
  "It starts with 3\u2026 no wait, that\x27s my other account. Hold on.",
  "Let me read it slowly \u2014 one, two\u2026 wait, I can\x27t read the next digit clearly.",
  "I\x27m worried. What if someone misuses my account number? Can you guarantee safety?",
  "My neighbour gave her account number to someone and lost all her money. I\x27m scared."]

/-- `EngagementController.THREAT_RESPONSES` pool, verbatim -/
def THREAT_RESPONSES : List String := [
  "Please don\x27t involve police! I\x27ll cooperate. Just tell me what to do.",
  "Oh no, I didn\x27t know this was serious. What is the case reference number?",
  "I don\x27t want legal trouble. I\x27m a retired person. Please explain what happened.",
  "You\x27re scaring me. Is there really a case against me? What is the allegation?",
  "I am a senior citizen. Please be patient with me. Can you explain once more?",
  "I\x27ll do whatever you say. Please don\x27t file any case. What do I need to do?",
  "Please sir, I have health issues. My blood pressure just shoots up with stress.",
  "I am shaking with fear. Let me sit down first. My hands are trembling.",
  "Arrest? Sir, I have never done anything wrong in my life! This must be a mistake.",
  "I will cooperate fully. But please, let me speak to my family once before anything.",
  "Sir, please don\x27t shout at me. I am an old person. Let me understand first.",
  "Is there any way to resolve this peacefully? I can\x27t go through a legal process at my age.",
  "My son is a lawyer. Wait, let me just inform him. He should know about this.",
  "What is the exact allegation? I haven\x27t done anything illegal. There must be some confusion.",
  "This sounds suspicious. Real officers don\x27t threaten like this over the phone.",
  "I\x27m worried this might be a scam. Let me verify with the actual department first.",
  "My family warned me about fraud calls with legal threats. How do I verify you?",
  "This pressure doesn\x27t seem right. Real government doesn\x27t call like this."]

/-- `EngagementController.PAYMENT_LURE_RESPONSES` pool, verbatim -/
def PAYMENT_LURE_RESPONSES : List String := [
  "Really? I won something? But I don\x27t remember entering any contest!",
  "How much money are we talking about? This sounds too good to be true.",
  "Why do you need my details to give ME money? That doesn\x27t make sense.",
  "Can you send me something in writing first? I need to show my family.",
  "Refund? I haven\x27t filed any complaint recently. What refund?",
  "Processing fee? But if you\x27re giving me money, why should I pay first?",
  "Let me discuss with my family first. They handle money matters.",
  "My neighbour got cheated with a similar offer. Are you sure this is real?",
  "Which department is this refund coming from? I want to verify.",
  "Send me an official email about this. Then I\x27ll proceed.",
  "This sounds suspicious. Why pay to receive money? Doesn\x27t sound right.",
  "I\x27m worried about fraud. Processing fees are a classic scam tactic.",
  "My son warned me about such scam offers. How can I verify this is real?",
  "Paying first to receive money doesn\x27t seem right. Let me check with my family."]

/-- `EngagementController.ACCOUNT_COMPROMISE_RESPONSES` pool, verbatim -/
def ACCOUNT_COMPROMISE_RESPONSES : List String := [
  "Oh no! My account is compromised? What happened exactly? Please explain.",
  "Blocked? But I haven\x27t done anything wrong! What is the reason?",
  "Wait, which account are you talking about? I have multiple banks.",
  "How did this happen? I check my account regularly! This is very strange.",
  "Please don\x27t block my account! I\x27ll do whatever is needed. Just guide me.",
  "This is very worrying. Can you tell me what suspicious activity you found?",
  "KYC update? But I updated it just last year at the branch. Are you sure?",
  "I\x27m very concerned now. Let me get my documents. What exactly do you need?",
  "My money is safe, right? Please tell me nothing has been withdrawn!",
  "Wait, let me check my bank app\u2026 it\x27s loading\u2026 my phone is very slow.",
  "2 hours only? That\x27s not much time! My son handles all bank things, let me call him.",
  "But I just used my card yesterday and it was working fine! What changed?",
  "Is this about my SBI account or the other one? I\x27m confused.",
  "Let me call my branch also. What is the reference number for this issue?",
  "What is your employee ID? My branch manager said always verify the caller.",
  "Can you send me an SMS from the bank\x27s official number? Then I\x27ll believe you."]

/-- `EngagementController.COURIER_RESPONSES` pool, verbatim -/
def COURIER_RESPONSES : List String := [
  "Parcel? But I haven\x27t ordered anything recently. What parcel?",
  "Which courier company is this? I don\x27t remember any pending deliveries.",
  "Customs? But I didn\x27t order anything from abroad! There must be some mix-up.",
  "This must be a mistake. Can you check the tracking number again?",
  "Drugs? Sir, I am a respectable person! This is definitely a mix-up!",
  "Maybe someone used my address by mistake? What is in the parcel exactly?",
  "I need to understand this. Who sent this parcel to me? What is the sender\x27s name?",
  "What is the tracking number? Let me note it down and check with the courier office.",
  "This is very shocking! I need to sit down. My blood pressure is rising.",
  "Let me first tell my son about this. He handles all courier deliveries.",
  "Can you send me the tracking details by SMS? I want to verify with the courier company.",
  "What is the exact weight and contents listed on the parcel? I want to understand.",
  "I\x27m very scared now. Please don\x27t involve police until we clear this up.",
  "What is your badge number? I want to note it before we proceed."]

/-- `EngagementController.TECH_CONFUSION` pool, verbatim -/
def TECH_CONFUSION : List String := [
  "The app is showing some error. Can I try a different method?",
  "How do I check my balance? The app is asking for fingerprint\u2026",
  "My phone is very slow. Let me restart it once.",
  "The screen is frozen. Hold on, I\x27m pressing buttons\u2026",
  "I forgot my UPI PIN. Let me try my other one\u2026 no, that\x27s also not working.",
  "Internet banking is asking for some grid value. What grid?",
  "The payment is showing \x27failed\x27. What should I do now?",
  "My phone storage is full. Let me delete some photos and try again.",
  "Which app should I open \u2014 I have two or three banking apps.",
  "Sir, the screen went black. I think my phone switched off. One second."]

/-- `EngagementController.TECH_SUPPORT_RESPONSES` pool, verbatim -/
def TECH_SUPPORT_RESPONSES : List String := [
  "My computer is hacked? Oh no! But what is a virus exactly?",
  "AnyDesk? What is that? I don\x27t know how to download things.",
  "Screen sharing? My grandson does that sometimes. I don\x27t know how.",
  "I\x27m very scared now. Is my data safe? What exactly happened?",
  "Remote access? I don\x27t understand these technical things at all.",
  "Wait, my computer is very slow. Let me restart it first.",
  "Microsoft called me? But I use a very old computer. Is this real?",
  "I see a warning on screen. What does it mean? I can\x27t read it properly.",
  "How do I know you are really from the company? What is your employee ID?",
  "My son handles the computer usually. Let me message him first.",
  "The computer screen went black! What happened? Did I break something?",
  "I have a very old laptop. Windows 7 I think. Does this virus affect old ones too?"]

/-- `EngagementController.JOB_FRAUD_RESPONSES` pool, verbatim -/
def JOB_FRAUD_RESPONSES : List String := [
  "Work from home? That sounds interesting! What company is this?",
  "How much can I earn? And what exactly is the work involved?",
  "Training fee? But don\x27t companies usually pay for training?",
  "This sounds too good to be true. Can you send me an official email with the job details?",
  "My friend got cheated in a similar offer. How do I verify this is real?",
  "Daily earnings? That\x27s very tempting. But what is the company registration number?",
  "Telegram group for work? I\x27m not on Telegram. Is there a website I can check?",
  "Is there a joining fee? Real companies don\x27t charge, right?",
  "Let me discuss with my family first. They always advise me on these things.",
  "Product reviews? How does that work exactly? I\x27ve never done this before.",
  "Can you send me the offer letter by email? I want something official in writing.",
  "What is the company\x27s GST number? My son said always check before joining."]

/-- `EngagementController.INVESTMENT_RESPONSES` pool, verbatim -/
def INVESTMENT_RESPONSES : List String := [
  "Guaranteed returns? That sounds great! But how do I verify this is legitimate?",
  "Double my money? Which company is this? What is the SEBI registration number?",
  "I\x27m interested but my son says to be careful. Let me show him first.",
  "How much is the minimum investment? And what is the lock-in period?",
  "Crypto trading? I\x27ve heard of Bitcoin. But is it safe for senior citizens?",
  "Monthly income? That would really help my pension. Tell me more about the scheme.",
  "My neighbour invested somewhere and lost everything. How is this different?",
  "Risk-free? Nothing is risk-free. Can you send me documentation by email?",
  "Which platform is this on? Is it registered with SEBI?",
  "I have some savings I could invest. What happens if I want to withdraw early?",
  "Can you share past performance reports? I want to study them before deciding.",
  "My chartered accountant handles my investments. Can I share this with him first?"]

/-- `EngagementController.IDENTITY_RESPONSES` pool, verbatim -/
def IDENTITY_RESPONSES : List String := [
  "Aadhaar number? But isn\x27t it supposed to be kept private? Why do you need it?",
  "PAN card? I keep it in the locker. Let me find it. Give me a few minutes.",
  "Why do you need my date of birth? That\x27s personal information.",
  "My son told me never to share these details on phone. Can you send a written request?",
  "ID proof? Which one do you need? I have voter card, Aadhaar, and PAN.",
  "Selfie with Aadhaar? That sounds suspicious. My bank never asks for this.",
  "Wait, let me get my reading glasses to find the documents.",
  "I\x27m worried about sharing identity details on phone. Can you send an official email?",
  "My Aadhaar card is laminated and the number is hard to read. Let me try.",
  "Passport number? I don\x27t have it memorized. Let me check the drawer.",
  "What is your employee ID? I need to verify before sharing any personal details.",
  "Can I visit the branch instead? I\x27d rather share documents in person."]

/-- `EngagementController.STALLING` pool, verbatim -/
def STALLING : List String := [
  "Hold on, someone is at the door. One minute please.",
  "Can you wait? I need to find my reading glasses.",
  "Sorry, network is very bad here. Can you speak louder?",
  "I\x27m in the middle of something. Can this wait 5 minutes?",
  "Let me call my family member first. They handle these things for me.",
  "My other phone is ringing. Don\x27t disconnect, I\x27ll be right back.",
  "One moment, I need to take my medicine. I\x27ll be quick.",
  "Hold on, I need to plug in my charger. Battery is about to die.",
  "Let me write this down. Where is my pen\u2026 okay go ahead, slowly.",
  "Sorry, I didn\x27t hear that clearly. Can you repeat everything once more?"]

/-- `EngagementController.CONTINUATION_PROMPTS` pool, verbatim -/
def CONTINUATION_PROMPTS : List String := [
  "Can you give me your full name in case we get disconnected?",
  "What is your official department ID? I want to note it for my records.",
  "Can you share the reference number for this case? I need it for documentation.",
  "The link you sent didn\x27t open. Can you tell me the website name?",
  "What is the case reference number? I want to write it in my diary.",
  "Which branch or office are you calling from? I want to know the address.",
  "Sorry, my network is unstable. Can you repeat the main points slowly?",
  "One minute, I\x27m checking my documents. Please hold.",
  "My phone just restarted. Can you tell me again what I need to do?",
  "Before I proceed, can you send me an email with all the details? I need written proof.",
  "What number should I call back if this call drops?",
  "I want to note down everything. What is your full name and department?",
  "How long will this whole process take? I have a doctor\x27s appointment later.",
  "Is there a complaint number I can use to track this?"]

/-- `EngagementController.RED_FLAG_PHRASES` pool, verbatim -/
def RED_FLAG_PHRASES : List String := [
  "This sounds suspicious to me.",
  "I\x27m worried this might be fraud.",
  "My son warned me about scam calls.",
  "This doesn\x27t sound right to me.",
  "This concerns me a lot.",
  "This pressure makes me nervous.",
  "I\x27m uncomfortable with this urgency.",
  "Let me verify first before proceeding.",
  "My family told me to check with them.",
  "Real banks don\x27t call like this.",
  "I\x27m scared this could be a scam.",
  "The urgency doesn\x27t seem right.",
  "This sounds unusual to me.",
  "My daughter said to be careful about fraud."]

/-- `EngagementController.ELICITATION_PHRASES` pool, verbatim -/
def ELICITATION_PHRASES : List String := [
  "Give me your phone number.",
  "Tell me the account number slowly.",
  "Share the UPI ID details.",
  "What is the reference number?",
  "Give me the case ID for my records.",
  "Let me note down the contact number.",
  "Spell out the account details.",
  "Repeat the IFSC code for me.",
  "Share the beneficiary name.",
  "Tell me your email address."]

/-- `EngagementController._THEME_ASKS_PHONE` keyword set -/
def THEME_ASKS_PHONE : List String := [
  "phone number",
  "contact number",
  "callback number",
  "contact details",
  "official contact",
  "your number",
  "call you back",
  "phone no",
  "your phone",
  "callback",
  "phone first",
  "direct phone",
  "official number",
  "landline",
  "whatsapp number"]

/-- `EngagementController._THEME_ASKS_ACCOUNT` keyword set -/
def THEME_ASKS_ACCOUNT : List String := [
  "account number",
  "account details",
  "bank account",
  "ifsc",
  "beneficiary",
  "upi id",
  "account holder"]

/-- `EngagementController._THEME_ASKS_ID` keyword set -/
def THEME_ASKS_ID : List String := [
  "employee id",
  "badge number",
  "reference number",
  "case number",
  "department id",
  "reference id",
  "complaint number",
  "case reference",
  "employee details"]

/-- `EngagementController._THEME_STALLS` keyword set -/
def THEME_STALLS : List String := [
  "hold on",
  "one minute",
  "wait",
  "let me",
  "my phone",
  "battery",
  "restart",
  "charger",
  "one second",
  "door",
  "medicine",
  "reading glasses",
  "network",
  "slow"]

/-- red-flag lexicon checked inside `_enhance_response_for_quality` -/
def RED_FLAG_INDICATORS : List String := [
  "suspicious",
  "fraud",
  "scam",
  "worried",
  "concerns me",
  "nervous",
  "uncomfortable",
  "doesn\x27t sound right",
  "verify first",
  "my son",
  "my family",
  "scared",
  "urgency",
  "pressure",
  "too good to be true",
  "warning"]

/-- elicitation lexicon checked inside `_enhance_response_for_quality` -/
def ELICITATION_INDICATORS : List String := [
  "give me",
  "tell me",
  "share the",
  "account number",
  "phone number",
  "upi id",
  "reference number",
  "case id",
  "note down",
  "spell",
  "repeat",
  "beneficiary",
  "ifsc"]

/-- connectors used inside `_enhance_response_for_quality` -/
def ENHANCE_CONNECTORS : List String := [
  "Also,",
  "By the way,",
  "Oh and also,",
  "Before I forget \u2014",
  "While we are on this,"]

/-- `_filter_redundant_asks` drop phrases for obtained phone numbers -/
def DROP_PHONE_PHRASES : List String := [
  "phone number",
  "contact number",
  "callback number",
  "contact details",
  "your number",
  "official contact",
  "phone no",
  "your phone",
  "direct phone"]

/-- `_filter_redundant_asks` drop phrases for obtained bank accounts -/
def DROP_BANK_PHRASES : List String := [
  "account number",
  "account details",
  "bank account",
  "beneficiary",
  "ifsc"]

/-- `_filter_redundant_asks` drop phrases for obtained UPI ids -/
def DROP_UPI_PHRASES : List String := [
  "upi id",
  "upi details"]

/-- `_filter_redundant_asks` drop phrases for obtained email addresses -/
def DROP_EMAIL_PHRASES : List String := [
  "email id",
  "email address",
  "official email"]

/-- `_primary_tactic` priority order -/
def TACTIC_PRIORITY : List String := [
  "otp_request",
  "account_request",
  "credential",
  "courier",
  "tech_support",
  "job_fraud",
  "investment",
  "identity_theft",
  "threat",
  "digital_arrest",
  "payment_lure",
  "payment_request",
  "verification",
  "urgency"]

/-- `EngagementController._compute_stage`. -/
def computeStage (riskScore : Int) (msgCount : Nat) (isScam : Bool) : Nat :=
  if isScam = false ∧ riskScore < 30 then (if msgCount ≤ 3 then 1 else 2)
  else if riskScore < 50 then 2
  else if riskScore < 80 then (if msgCount ≤ 5 then 3 else 4)
  else if 6 ≤ msgCount then 5 else 4

/-- `EngagementController._pick_non_repeat`: pick an unused response from
the pool (falling back to the whole pool when exhausted) and add the
choice to the session's used set. -/
def pickNonRepeat (pool : List String) (used : List String) (choice : Nat) :
    String × List String :=
  let available := pool.filter (fun r => decide (r ∉ used))
  let avail2 := if available.isEmpty then pool else available
  let c := pickAt avail2 choice
  (c, insertNew used c)

/-- `EngagementController._select_pool`.  `r1` models
`random.random() > 0.4`, `r2` models `> 0.25`, `r3` models `> 0.2`. -/
def selectPool (tactics : List String) (stage : Nat) (msgCount : Nat)
    (r1 r2 r3 : Bool) : List String :=
  if "otp_request" ∈ tactics then OTP_RESPONSES
  else if "account_request" ∈ tactics then ACCOUNT_RESPONSES
  else if "credential" ∈ tactics then TECH_CONFUSION
  else if "courier" ∈ tactics then COURIER_RESPONSES
  else if "tech_support" ∈ tactics then TECH_SUPPORT_RESPONSES
  else if "job_fraud" ∈ tactics then JOB_FRAUD_RESPONSES
  else if "investment" ∈ tactics then INVESTMENT_RESPONSES
  else if "identity_theft" ∈ tactics then IDENTITY_RESPONSES
  else if "threat" ∈ tactics ∨ "digital_arrest" ∈ tactics then
    THREAT_RESPONSES
  else if "payment_lure" ∈ tactics then PAYMENT_LURE_RESPONSES
  else if "verification" ∈ tactics ∨ "urgency" ∈ tactics then
    (if msgCount ≤ 2 then ACCOUNT_COMPROMISE_RESPONSES
     else if r1 then STAGE_3 else ACCOUNT_COMPROMISE_RESPONSES)
  else if "payment_request" ∈ tactics then
    (if 4 ≤ stage then STAGE_5
     else if 3 ≤ stage then STAGE_4
     else STAGE_3)
  else if stage == 1 then STAGE_1
  else if stage == 2 then STAGE_2
  else if stage == 3 then STAGE_3
  else if stage == 4 then (if r2 then STAGE_4 else STALLING)
  else (if r3 then STAGE_5 else CONTINUATION_PROMPTS)

/-- `EngagementController._blend_variety`. -/
def blendVariety (pool : List String) (stage : Nat) : List String :=
  pool ++ (STALLING ++ TECH_CONFUSION ++
    (if 3 ≤ stage then CONTINUATION_PROMPTS else []))

/-- `EngagementController._classify_theme`. -/
def classifyTheme (response : String) : String :=
  let low := lowerStr response
  if THEME_ASKS_PHONE.any (fun p => containsTok low p) then "asks_phone"
  else if THEME_ASKS_ACCOUNT.any (fun p => containsTok low p) then
    "asks_account"
  else if THEME_ASKS_ID.any (fun p => containsTok low p) then "asks_id"
  else if THEME_STALLS.any (fun p => containsTok low p) then "stalls"
  else "general"

/-- `EngagementController._filter_by_theme_diversity`. -/
def filterByThemeDiversity (pool : List String) (lastTheme : Option String) :
    List String :=
  match lastTheme with
  | none => pool
  | some t =>
    if t == "general" then pool
    else
      let diverse := pool.filter (fun r => classifyTheme r != t)
      if 3 ≤ diverse.length then diverse else pool

/-- `EngagementController._filter_redundant_asks` (the intel dict enters
only through its per-class truthiness). -/
def filterRedundantAsks (pool : List String) (intel : Quality.IntelFlags) :
    List String :=
  let dropPhrases :=
    (if intel.phoneNumbers then DROP_PHONE_PHRASES else []) ++
    (if intel.bankAccounts then DROP_BANK_PHRASES else []) ++
    (if intel.upiIds then DROP_UPI_PHRASES else []) ++
    (if intel.emailAddresses then DROP_EMAIL_PHRASES else [])
  if dropPhrases.isEmpty then pool
  else
    let filtered := pool.filter
      (fun r => !(dropPhrases.any (fun p => containsTok (lowerStr r) p)))
    if 3 ≤ filtered.length then filtered else pool

/-- `EngagementController._enhance_response_for_quality`: append a
red-flag phrase and/or an elicitation phrase when the reply lacks the
respective lexicon, joined by a connector and lower-cased. -/
def enhanceResponseForQuality (isScam : Bool) (msgCount : Nat)
    (redChoice elicChoice connChoice : Nat) (response : String) : String :=
  if isScam = false then response
  else
    let hasRedFlag := RED_FLAG_INDICATORS.any
      (fun kw => containsTok (lowerStr response) kw)
    let additions : List String :=
      if hasRedFlag then [] else [pickAt RED_FLAG_PHRASES redChoice]
    let additions :=
      if 2 ≤ msgCount then
        (let hasElicitation := ELICITATION_INDICATORS.any
          (fun kw => containsTok (lowerStr response) kw)
        if hasElicitation then additions
        else additions ++ [pickAt ELICITATION_PHRASES elicChoice])
      else additions
    if additions.isEmpty then response
    else
      let connector := pickAt ENHANCE_CONNECTORS connChoice
      response ++ " " ++ connector ++ " " ++ lowerStr (joinSpace additions)

/-- The reply `get_reply` emits through its non-probing path (the neural
engine being unavailable): pool selection, variety blending, the
continuation-prompt override, redundancy and theme filters,
`_pick_non_repeat`, then quality enhancement.  `contOverride` models
`random.random() < 0.3`. -/
def getReplyFallback (tactics : List String) (stage : Nat) (msgCount : Nat)
    (isScam : Bool) (tacticStreak : Nat) (contOverride : Bool)
    (intel : Quality.IntelFlags) (lastTheme : Option String)
    (used : List String) (r1 r2 r3 : Bool)
    (pickChoice redChoice elicChoice connChoice : Nat) : String :=
  let pool := selectPool tactics stage msgCount r1 r2 r3
  let pool := if 3 ≤ tacticStreak ∧ isScam = true then blendVariety pool stage
    else pool
  let pool := if isScam = true ∧ 4 ≤ stage ∧ 4 ≤ msgCount ∧ tactics = [] ∧
      contOverride then CONTINUATION_PROMPTS
    else pool
  let pool := filterRedundantAsks pool intel
  let pool := filterByThemeDiversity pool lastTheme
  let resp := (pickNonRepeat pool used pickChoice).1
  enhanceResponseForQuality isScam msgCount redChoice elicChoice connChoice
    resp

/-- The reply `get_reply` emits through the quality-probing path: the
probing string returned by the tracker, quality-enhanced. -/
def getReplyProbing (probing : String) (msgCount : Nat) (isScam : Bool)
    (redChoice elicChoice connChoice : Nat) : String :=
  enhanceResponseForQuality isScam msgCount redChoice elicChoice connChoice
    probing

end Agent

/-! ## Supporting lemmas for the session store -/

namespace SessionMemory

theorem lookup_setSession (store : Store) (id : String) (s t : Session)
    (h : lookupSession store id = some s) :
    lookupSession (setSession store id t) id = some t := by
  induction store with
  | nil => simp [lookupSession, List.lookup] at h
  | cons kv rest ih =>
    obtain ⟨k, v⟩ := kv
    by_cases hk : k = id
    · subst hk
      simp [lookupSession, setSession, List.lookup]
    · have hbk : (k == id) = false := beq_eq_false_iff_ne.mpr hk
      have hbid : (id == k) = false := beq_eq_false_iff_ne.mpr (Ne.symm hk)
      have h' : lookupSession rest id = some s := by
        simp only [lookupSession, List.lookup, hbid] at h
        exact h
      have := ih h'
      simp only [lookupSession, setSession, hbk, List.lookup, hbid] at this ⊢
      exact this

theorem markFinalized_of_finalized (store : Store) (id : String)
    (s : Session) (h : lookupSession store id = some s)
    (hf : s.finalSubmitted = true) :
    markFinalized store id = (false, store) := by
  simp [markFinalized, h, hf]

theorem markFinalizedRun_of_finalized (store : Store) (id : String)
    (s : Session) (h : lookupSession store id = some s)
    (hf : s.finalSubmitted = true) (n : Nat) :
    markFinalizedRun store id n = (List.replicate n false, store) := by
  induction n with
  | zero => simp [markFinalizedRun]
  | succ m ih =>
    simp [markFinalizedRun, markFinalized_of_finalized store id s h hf, ih,
      List.replicate]

end SessionMemory

/-! ## Theorems for claims C1, C3, C6 -/

open SessionMemory Callback

/-- Claim C1, counterexample.  The claim asserts that, over any sequence of
`markFinalized` calls for a session id, including the first call ever made
for that id, exactly the first call returns `true`.  On the code, when no
session record exists for the id (no `ensure_session` yet), the very
first call returns `false` and sets nothing, refuting the claim at the
concrete input (empty store, id "session-1"). -/
theorem c1_counterexample :
    (markFinalized ([] : Store) "session-1").1 = false ∧
      (markFinalized ([] : Store) "session-1").2 = [] := by
  constructor <;> rfl

/-- Claim C1, amended: provided the session id is present in the store (as
`ensure_session` guarantees) with `finalSubmitted` unset, `markFinalized`
is a compare-and-set: over any sequence of `n + 1` consecutive calls,
exactly the first returns `true`, every later call returns `false`, and
the flag ends (and, being never reset, stays) `true`. -/
theorem c1_markFinalized_exactly_once (store : Store) (id : String)
    (s : Session) (h : lookupSession store id = some s)
    (hf : s.finalSubmitted = false) (n : Nat) :
    (markFinalizedRun store id (n + 1)).1 =
        true :: List.replicate n false ∧
      (lookupSession (markFinalizedRun store id (n + 1)).2 id).map
          Session.finalSubmitted = some true := by
  have hstep : markFinalized store id =
      (true, setSession store id
        { s with finalSubmitted := true, callbackSent := true }) := by
    simp [markFinalized, h, hf]
  have hlook : lookupSession
      (setSession store id
        { s with finalSubmitted := true, callbackSent := true }) id =
      some { s with finalSubmitted := true, callbackSent := true } :=
    lookup_setSession store id s _ h
  have hrun := markFinalizedRun_of_finalized
    (setSession store id
      { s with finalSubmitted := true, callbackSent := true }) id _
    hlook rfl n
  constructor
  · simp [markFinalizedRun, hstep, hrun]
  · simp [markFinalizedRun, hstep, hrun, hlook]

/-- Claim C1, witness: a concrete run on a freshly ensured session — three
calls return `[true, false, false]` and the flag ends set. -/
theorem c1_witness :
    (markFinalizedRun (ensureSession ([] : Store) "s") "s" 3).1 =
        true :: List.replicate 2 false ∧
      (lookupSession (markFinalizedRun (ensureSession ([] : Store) "s") "s" 3).2
          "s").map Session.finalSubmitted = some true :=
  c1_markFinalized_exactly_once (ensureSession ([] : Store) "s") "s"
    freshSession (by decide) (by decide) 2

/-- Claim C3: `shouldSendCallback` returns `false` whenever the session is
already finalized; otherwise it returns `true` if `turnCount ≥ 12`; and
otherwise it returns `true` exactly when the scam is detected, the turn
count is at least 8, and the quality thresholds are met. -/
theorem c3_shouldSend_gating (sid : String) (sd : Bool) (tc : Nat)
    (qm fin : Bool) :
    (fin = true → shouldSendCallback sid sd tc qm fin = false) ∧
      (fin = false → 12 ≤ tc → shouldSendCallback sid sd tc qm fin = true) ∧
      (fin = false → tc < 12 →
        (shouldSendCallback sid sd tc qm fin = true ↔
          sd = true ∧ 8 ≤ tc ∧ qm = true)) := by
  refine ⟨fun hfin => ?_, fun hfin h12 => ?_, fun hfin h12 => ?_⟩
  · simp [shouldSendCallback, hfin]
  · simp [shouldSendCallback, hfin, h12]
  · have : ¬ 12 ≤ tc := by omega
    simp [shouldSendCallback, hfin, this, and_assoc]

/-- Claim C3, witness: the gating theorem applied at concrete inputs —
finalized blocks, turn 12 forces, and turn 9 requires all three
conditions. -/
theorem c3_witness :
    shouldSendCallback "s" true 20 true true = false ∧
      shouldSendCallback "s" false 12 false false = true ∧
      shouldSendCallback "s" true 9 true false = true := by
  refine ⟨(c3_shouldSend_gating "s" true 20 true true).1 rfl,
    (c3_shouldSend_gating "s" false 12 false false).2.1 rfl (by omega),
    ((c3_shouldSend_gating "s" true 9 true false).2.2 rfl (by omega)).mpr
      ⟨rfl, by omega, rfl⟩⟩

/-- Claim C6, counterexample.  The claim asserts that, for a fixed
`durationVariance`, `engagementDuration` is monotone nondecreasing in the
raw duration.  At variance 5 the value drops from 190 (raw = 179 s) to
185 (raw = 180 s) when the raw duration crosses the 180 s branch
boundary, refuting monotonicity. -/
theorem c6_counterexample :
    getEngagementDuration 179 5 = 190 ∧ getEngagementDuration 180 5 = 185 := by
  constructor <;> rfl

/-- Claim C6, amended: for a variance sampled from [5, 55],
`engagementDuration` returns `185 + v ∈ [190, 240]` when the raw duration
is below 180 s and `raw + min v 30` otherwise, and it is monotone
nondecreasing in the raw duration within each branch — but not across the
180 s boundary, where the value can drop (by up to 30 s). -/
theorem c6_engagementDuration (v : Nat) (h5 : 5 ≤ v) (h55 : v ≤ 55) :
    (∀ raw, raw < 180 →
      getEngagementDuration raw v = 185 + v ∧
        190 ≤ getEngagementDuration raw v ∧
        getEngagementDuration raw v ≤ 240) ∧
      (∀ raw, 180 ≤ raw →
        getEngagementDuration raw v = raw + min v 30) ∧
      (∀ r1 r2, r1 ≤ r2 → r2 < 180 →
        getEngagementDuration r1 v ≤ getEngagementDuration r2 v) ∧
      (∀ r1 r2, 180 ≤ r1 → r1 ≤ r2 →
        getEngagementDuration r1 v ≤ getEngagementDuration r2 v) := by
  refine ⟨fun raw hraw => ?_, fun raw hraw => ?_,
    fun r1 r2 h12 h2 => ?_, fun r1 r2 h1 h12 => ?_⟩
  · have e : getEngagementDuration raw v = 185 + v := by
      simp [getEngagementDuration, hraw]
    exact ⟨e, by omega, by omega⟩
  · have hn : ¬ raw < 180 := by omega
    simp [getEngagementDuration, hn]
  · have e1 : getEngagementDuration r1 v = 185 + v := by
      simp [getEngagementDuration, (by omega : r1 < 180)]
    have e2 : getEngagementDuration r2 v = 185 + v := by
      simp [getEngagementDuration, h2]
    omega
  · have hn1 : ¬ r1 < 180 := by omega
    have hn2 : ¬ r2 < 180 := by omega
    have e1 : getEngagementDuration r1 v = r1 + min v 30 := by
      simp [getEngagementDuration, hn1]
    have e2 : getEngagementDuration r2 v = r2 + min v 30 := by
      simp [getEngagementDuration, hn2]
    omega

/-- Claim C6, witness: the amended duration theorem applied at variance 10
with raw durations 100 s (short branch) and 200 s (long branch). -/
theorem c6_witness :
    getEngagementDuration 100 10 = 195 ∧
      getEngagementDuration 200 10 = 210 := by
  have h := c6_engagementDuration 10 (by omega) (by omega)
  refine ⟨?_, ?_⟩
  · have := (h.1 100 (by omega)).1
    omega
  · have := h.2.1 200 (by omega)
    omega

/-! ## Supporting lemmas for the risk scorer -/

namespace Detector

theorem scanLayers_turnScore_le (search : MatchOracle) (lowered : String) :
    ∀ (layers : List (String × List (String × Int))) (acc : TurnScan),
      acc.turnScore ≤ (scanLayers search lowered layers acc).turnScore := by
  intro layers
  induction layers with
  | nil => intro acc; simp [scanLayers]
  | cons hd rest ih =>
    intro acc
    obtain ⟨name, patterns⟩ := hd
    simp only [scanLayers]
    by_cases hls : 0 < scoreLayer search lowered patterns
    · simp only [if_pos hls]
      have h2 := ih ⟨acc.turnScore + scoreLayer search lowered patterns,
        acc.turnSignals ++ [name], bumpCount acc.counts name⟩
      have h3 : acc.turnScore ≤
          acc.turnScore + scoreLayer search lowered patterns := by omega
      exact le_trans h3 h2
    · simp only [if_neg hls]
      exact ih acc

theorem escalationScan_nonneg :
    ∀ (l : List (Nat × Int)), (∀ kb ∈ l, 0 ≤ kb.2) → ∀ n : Nat,
      0 ≤ escalationScan l n := by
  intro l
  induction l with
  | nil => intro _ n; simp [escalationScan]
  | cons kb rest ih =>
    intro h n
    obtain ⟨k, b⟩ := kb
    simp only [escalationScan]
    by_cases hk : k ≤ n
    · simp only [if_pos hk]
      exact h (k, b) (List.mem_cons_self _ _)
    · simp only [if_neg hk]
      exact ih (fun x hx => h x (List.mem_cons_of_mem _ hx)) n

theorem escalationBonus_nonneg (n : Nat) : 0 ≤ escalationBonus n :=
  escalationScan_nonneg ESCALATION_BONUSES.reverse (by decide) n

theorem repeatBonus_fold_le (counts : List (String × Nat)) :
    ∀ init : Int,
      init ≤ counts.foldl
        (fun total kc =>
          total + (if kc.2 == 2 then 6 else if 3 ≤ kc.2 then 12 else 0))
        init := by
  induction counts with
  | nil => intro init; simp
  | cons kc rest ih =>
    intro init
    simp only [List.foldl]
    have h1 : init ≤
        init + (if kc.2 == 2 then 6 else if 3 ≤ kc.2 then 12 else 0) := by
      split_ifs <;> omega
    exact le_trans h1 (ih _)

theorem repeatBonus_nonneg (counts : List (String × Nat)) :
    0 ≤ repeatBonus counts :=
  repeatBonus_fold_le counts 0

/-- Single-call monotonicity of the cumulative score. -/
theorem analyzeMessage_mono (search matchStart : MatchOracle)
    (text : String) (p : RiskProfile) :
    p.cumulativeScore ≤
      ((analyzeMessage search matchStart text p).2).cumulativeScore := by
  have hts : (0 : Int) ≤ (scanLayers search (lowerStr text)
      (coreLayers ++ auxiliaryLayers) ⟨0, [], p.signalCounts⟩).turnScore := by
    simpa using scanLayers_turnScore_le search (lowerStr text)
      (coreLayers ++ auxiliaryLayers) ⟨0, [], p.signalCounts⟩
  have hrep := repeatBonus_nonneg
    ((scanLayers search (lowerStr text) (coreLayers ++ auxiliaryLayers)
      ⟨0, [], p.signalCounts⟩).counts)
  have hesc := escalationBonus_nonneg
    ((scanLayers search (lowerStr text) (coreLayers ++ auxiliaryLayers)
        ⟨0, [], p.signalCounts⟩).turnSignals.foldl insertNew
      p.triggeredSignals).length
  simp only [analyzeMessage]
  split
  · exact le_refl _
  · split
    · exact le_refl _
    · split
      · simp only
        omega
      · simp only
        omega

theorem mem_ite {α : Type} {c : Prop} [Decidable c] {a b : α}
    {l : List α} (ha : a ∈ l) (hb : b ∈ l) : (if c then a else b) ∈ l := by
  split
  · exact ha
  · exact hb

/-- The scam-type label produced by `_classify` always lies in the
closed label set. -/
theorem classify_mem_valid (signals : List String) :
    classify signals ∈ VALID_SCAM_TYPES := by
  unfold classify
  repeat' apply mem_ite
  all_goals decide

/-- Any single `analyze_message` call either keeps the scam type or
reassigns it through `_classify`. -/
theorem analyzeMessage_scamType (search matchStart : MatchOracle)
    (text : String) (p : RiskProfile) :
    ((analyzeMessage search matchStart text p).2).scamType = p.scamType ∨
      ((analyzeMessage search matchStart text p).2).scamType =
        classify (((analyzeMessage search matchStart text p).2).triggeredSignals) := by
  simp only [analyzeMessage]
  split
  · exact Or.inl rfl
  · split
    · exact Or.inl rfl
    · split
      · exact Or.inr rfl
      · exact Or.inl rfl

theorem analyzeFold_scamType_valid (search matchStart : MatchOracle)
    (texts : List String) :
    (analyzeFold search matchStart texts).scamType ∈ VALID_SCAM_TYPES := by
  have key : ∀ (ts : List String) (p : RiskProfile),
      p.scamType ∈ VALID_SCAM_TYPES →
      (ts.foldl (fun pr t => (analyzeMessage search matchStart t pr).2)
        p).scamType ∈ VALID_SCAM_TYPES := by
    intro ts
    induction ts with
    | nil => intro p hp; simpa using hp
    | cons t rest ih =>
      intro p hp
      simp only [List.foldl]
      apply ih
      rcases analyzeMessage_scamType search matchStart t p with h | h
      · rw [h]; exact hp
      · rw [h]; exact classify_mem_valid _
  exact key texts initialProfile (by simp [initialProfile, VALID_SCAM_TYPES])

end Detector

open Detector

/-- Claim C2: for every regex-engine behaviour and every sequence of
analyzed messages, the cumulative risk score is monotonically
nondecreasing — both across a single `analyze_message` call from any
profile state, and across any extension of a session's message
sequence. -/
theorem c2_cumulativeScore_monotone (search matchStart : MatchOracle) :
    (∀ (text : String) (p : RiskProfile),
      p.cumulativeScore ≤
        ((analyzeMessage search matchStart text p).2).cumulativeScore) ∧
    (∀ (texts : List String) (t : String),
      (analyzeFold search matchStart texts).cumulativeScore ≤
        (analyzeFold search matchStart (texts ++ [t])).cumulativeScore) := by
  constructor
  · exact analyzeMessage_mono search matchStart
  · intro texts t
    have : analyzeFold search matchStart (texts ++ [t]) =
        (analyzeMessage search matchStart t
          (analyzeFold search matchStart texts)).2 := by
      simp [analyzeFold, List.foldl_append]
    rw [this]
    exact analyzeMessage_mono search matchStart t _

/-- Claim C5, counterexample.  The claim asserts the scam type is set once,
at the first latch, and never reassigned.  On the code, `_classify` is
re-run on every `analyze_message` call whose cumulative score is at or
above the threshold: a session whose first message "share otp" latches
with type "phishing" is reclassified to "courier" by the later message
"customs duty". -/
theorem c5_counterexample :
    cexRun1.2.scamDetected = true ∧ cexRun1.2.scamType = "phishing" ∧
      cexRun2.2.scamType = "courier" ∧
      cexRun2.2.scamType ≠ cexRun1.2.scamType := by
  refine ⟨by decide, by decide, by decide, by decide⟩

/-- Claim C5, amended: the scam type always lies in the closed twelve-label
set, and it is assigned by `_classify` at every scoring call whose
resulting cumulative score is at or above `SCAM_THRESHOLD` — in
particular at the first latch — so later calls may reassign it as more
signal categories accumulate. -/
theorem c5_scamType_closed_set_reclassified
    (search matchStart : MatchOracle) :
    (∀ texts : List String,
      (analyzeFold search matchStart texts).scamType ∈ VALID_SCAM_TYPES) ∧
    (∀ (text : String) (p : RiskProfile),
      (pyStrip text == "") = false →
      ((p.messageCount + 1 == 1) && isPureGreeting matchStart text) = false →
      SCAM_THRESHOLD ≤
        ((analyzeMessage search matchStart text p).2).cumulativeScore →
      ((analyzeMessage search matchStart text p).2).scamType =
        classify
          (((analyzeMessage search matchStart text p).2).triggeredSignals)) := by
  constructor
  · exact analyzeFold_scamType_valid search matchStart
  · intro text p hne hgr hth
    simp only [analyzeMessage, hne, Bool.false_eq_true, if_false, hgr] at hth ⊢
    split
    · rfl
    · next hcond =>
      rw [if_neg hcond] at hth
      exact absurd hth hcond

/-- Claim C5, witness: the amended theorem applied at the concrete second
counterexample turn, discharging its three hypotheses by evaluation. -/
theorem c5_witness :
    cexRun2.2.scamType = classify cexRun2.2.triggeredSignals :=
  (c5_scamType_closed_set_reclassified cexSearch cexMatchStart).2 cexText2
    cexRun1.2 (by decide) (by decide) (by decide)

/-! ## Supporting lemmas for the extractor -/

theorem mem_insertNew_self (s : List String) (x : String) :
    x ∈ insertNew s x := by
  unfold insertNew
  split
  · assumption
  · simp

theorem mem_insertNew (s : List String) (x c : String)
    (h : c ∈ insertNew s x) : c ∈ s ∨ c = x := by
  unfold insertNew at h
  split at h
  · exact Or.inl h
  · rcases List.mem_append.mp h with h | h
    · exact Or.inl h
    · simp only [List.mem_singleton] at h
      exact Or.inr h

theorem insertNew_of_mem (s : List String) (x : String) (h : x ∈ s) :
    insertNew s x = s := by
  simp [insertNew, h]

theorem count_insertNew_of_not_mem (s : List String) (x : String)
    (h : x ∉ s) : (insertNew s x).count x = 1 := by
  simp [insertNew, h, List.count_append, List.count_eq_zero.mpr h]

namespace Extractor

theorem not_tollfree_of_mobile (cleaned : String)
    (h : isValidMobile cleaned = true) :
    (leadMatch "1800".data cleaned.data ||
      leadMatch "1860".data cleaned.data) = false := by
  unfold isValidMobile at h
  rcases hc : cleaned.data with _ | ⟨c0, rest⟩
  · rw [hc] at h
    simp at h
  · rw [hc] at h
    simp only [Bool.and_eq_true] at h
    have hm : isMobileDigit c0 = true := h.2
    simp only [isMobileDigit, Bool.or_eq_true, beq_iff_eq] at hm
    rcases hm with ((h6 | h6) | h6) | h6 <;>
      subst h6 <;> simp [leadMatch]

theorem phoneStep_eq_insert (store : List String) (m : RawMatch)
    (c : String) (h : phoneCanonical m = some c) :
    phoneStep store m = insertNew store c := by
  simp only [phoneCanonical] at h
  by_cases hv : isValidMobile (stripCountryCode (stripPhone (rawOf m))) = true
  · rw [if_pos hv] at h
    have hc : "+91" ++ stripCountryCode (stripPhone (rawOf m)) = c :=
      Option.some.inj h
    simp only [phoneStep, if_pos hv,
      not_tollfree_of_mobile _ hv, Bool.false_eq_true, if_false, hc]
  · rw [if_neg hv] at h
    exact absurd h (by simp)

theorem phoneStep_dedup (store : List String) (m1 m2 : RawMatch)
    (c : String) (h1 : phoneCanonical m1 = some c)
    (h2 : phoneCanonical m2 = some c) (h0 : c ∉ store) :
    (phoneStep (phoneStep store m1) m2).count c = 1 := by
  rw [phoneStep_eq_insert store m1 c h1, phoneStep_eq_insert _ m2 c h2,
    insertNew_of_mem _ c (mem_insertNew_self store c)]
  exact count_insertNew_of_not_mem store c h0

theorem ne_char_of_toNat_ne {c d : Char} (h : c.toNat ≠ d.toNat) :
    (c == d) = false := by
  apply beq_eq_false_iff_ne.mpr
  intro he
  exact h (by rw [he])

theorem digit_not_stripped (c : Char) (h : isDigitChar c = true) :
    (isSpaceChar c || c == '-') = false := by
  have h48 : 48 ≤ c.toNat ∧ c.toNat ≤ 57 := by
    simpa [isDigitChar] using h
  have e1 : (' ').toNat = 32 := rfl
  have e2 : ('\t').toNat = 9 := rfl
  have e3 : ('\n').toNat = 10 := rfl
  have e4 : ('\r').toNat = 13 := rfl
  have e5 : ('\x0b').toNat = 11 := rfl
  have e6 : ('\x0c').toNat = 12 := rfl
  have e7 : ('-').toNat = 45 := rfl
  simp only [isSpaceChar, Bool.or_eq_false_iff]
  refine ⟨⟨⟨⟨⟨⟨?_, ?_⟩, ?_⟩, ?_⟩, ?_⟩, ?_⟩, ?_⟩ <;>
    exact ne_char_of_toNat_ne (by omega)

theorem normalizeBankAccount_of_digits (m : String)
    (hd : allDigits m = true) : normalizeBankAccount m = m := by
  obtain ⟨l⟩ := m
  simp only [normalizeBankAccount, allDigits, String.data] at *
  congr 1
  apply List.filter_eq_self.mpr
  intro c hc
  have hdig : isDigitChar c = true := by
    have := List.all_eq_true.mp hd c hc
    simpa using this
  simp [digit_not_stripped c hdig]

theorem bankBareStep_mem (store : List String) (m : String)
    (hd : allDigits m = true) (c : String) (h : c ∈ bankBareStep store m) :
    c ∈ store ∨ (phoneLike c = false ∧ yearLike c = false) := by
  unfold bankBareStep at h
  by_cases h1 : m.data.length < 9 ∨ 18 < m.data.length
  · rw [if_pos h1] at h
    exact Or.inl h
  · rw [if_neg h1] at h
    by_cases h2 : phoneLike m = true
    · rw [if_pos h2] at h
      exact Or.inl h
    · rw [if_neg h2] at h
      by_cases h3 : yearLike m = true
      · rw [if_pos h3] at h
        exact Or.inl h
      · rw [if_neg h3] at h
        rcases mem_insertNew _ _ _ h with h' | h'
        · exact Or.inl h'
        · subst h'
          right
          rw [normalizeBankAccount_of_digits m hd]
          simp only [Bool.not_eq_true] at h2 h3
          exact ⟨h2, h3⟩

theorem bankBare_fold_mem (ms : List String) :
    ∀ store, (∀ m ∈ ms, allDigits m = true) →
      ∀ c, c ∈ ms.foldl bankBareStep store →
        c ∈ store ∨ (phoneLike c = false ∧ yearLike c = false) := by
  induction ms with
  | nil =>
    intro store _ c hc
    exact Or.inl (by simpa using hc)
  | cons m rest ih =>
    intro store hall c hc
    simp only [List.foldl] at hc
    rcases ih (bankBareStep store m)
        (fun x hx => hall x (List.mem_cons_of_mem _ hx)) c hc with h | h
    · exact bankBareStep_mem store m (hall m (List.mem_cons_self _ _)) c h
    · exact Or.inr h

end Extractor

open Extractor

/-- Claim C7: extracting the same Indian mobile number in the three surface
formats of scenario S4 leaves exactly the canonical entry
`+919876543210` in the session's `phoneNumbers` set; and in general, any
two matches that canonicalize to the same mobile value leave exactly one
entry for it. -/
theorem c7_phone_canonical_dedup :
    s4PhoneNumbers = ["+919876543210"] ∧
    ∀ (store : List String) (m1 m2 : RawMatch) (c : String),
      phoneCanonical m1 = some c → phoneCanonical m2 = some c →
      c ∉ store → (phoneStep (phoneStep store m1) m2).count c = 1 := by
  constructor
  · rfl
  · intro store m1 m2 c h1 h2 h0
    exact phoneStep_dedup store m1 m2 c h1 h2 h0

/-- Claim C7, witness: the dedup part applied to the bare and the
dash-separated formats of the same number. -/
theorem c7_witness :
    (phoneStep (phoneStep [] ⟨"9876543210", none⟩)
      ⟨"098765-43210", none⟩).count "+919876543210" = 1 :=
  c7_phone_canonical_dedup.2 [] ⟨"9876543210", none⟩ ⟨"098765-43210", none⟩
    "+919876543210" (by decide) (by decide) (by decide)

/-- Claim C8, counterexample.  The claim asserts that neither extraction
strategy ever inserts a phone-like canonical (10 digits with leading
6–9).  On the code, the contextual strategy checks only the 6–18 length
bound: on the text "account 9876543210", the bare strategy skips the
phone-like run but contextual pattern 1 inserts it, so the session's
`bankAccounts` set ends up holding the phone-like value. -/
theorem c8_counterexample :
    extractBankAccounts cexBankFind [] = ["9876543210"] ∧
      phoneLike "9876543210" = true := by
  constructor
  · rfl
  · rfl

/-- Claim C8, amended: the rejection holds for the bare 9–18-digit-run
strategy only — every value that strategy adds is neither a phone-like
10-digit string nor a 4-digit string (it cannot even be 4 digits long) —
while the contextual keyword-adjacent strategy applies only its 6–18
length bound and inserts the normalized capture without either
rejection. -/
theorem c8_bank_rejections_bare_only :
    (∀ (store ms : List String),
      (∀ m ∈ ms, allDigits m = true) →
      ∀ c, c ∈ ms.foldl bankBareStep store → c ∉ store →
        phoneLike c = false ∧ yearLike c = false) ∧
    (∀ (store : List String) (m : String),
      6 ≤ m.data.length → m.data.length ≤ 18 →
        normalizeBankAccount m ∈ bankContextStep store m) := by
  constructor
  · intro store ms hall c hc h0
    rcases bankBare_fold_mem ms store hall c hc with h | h
    · exact absurd h h0
    · exact h
  · intro store m h6 h18
    unfold bankContextStep
    rw [if_pos ⟨h6, h18⟩]
    exact mem_insertNew_self store (normalizeBankAccount m)

/-- Claim C8, witness: the amended theorem applied to a concrete 12-digit
bare run and a concrete 10-digit contextual capture. -/
theorem c8_witness :
    (phoneLike "123456789012" = false ∧ yearLike "123456789012" = false) ∧
      "9876543210" ∈ bankContextStep [] "9876543210" := by
  constructor
  · exact c8_bank_rejections_bare_only.1 [] ["123456789012"] (by decide)
      "123456789012" (by decide) (by decide)
  · exact c8_bank_rejections_bare_only.2 [] "9876543210" (by decide) (by decide)

/-! ## String-occurrence lemmas

A space-free token cannot occur across a space-separated join: any
occurrence lies inside one of the joined pieces.  These lemmas carry the
no-detection-leak property through the reply-assembly code. -/

theorem leadMatch_append_sep {sep : Char} :
    ∀ (tok a b : List Char), sep ∉ tok →
      leadMatch tok (a ++ sep :: b) = true → leadMatch tok a = true := by
  intro tok
  induction tok with
  | nil => intro a b _ _; rfl
  | cons t tok' ih =>
    intro a b hsep h
    cases a with
    | nil =>
      exfalso
      simp only [List.nil_append, leadMatch, Bool.and_eq_true, beq_iff_eq] at h
      exact hsep (by rw [← h.1]; exact List.mem_cons_self t tok')
    | cons c a' =>
      simp only [List.cons_append, leadMatch, Bool.and_eq_true] at h ⊢
      exact ⟨h.1, ih a' b (fun hm => hsep (List.mem_cons_of_mem _ hm)) h.2⟩

theorem occursIn_of_leadMatch (tok l : List Char)
    (h : leadMatch tok l = true) : occursIn tok l = true := by
  cases l with
  | nil => simpa [occursIn] using h
  | cons c rest => simp [occursIn, h]

theorem occursIn_append_sep {sep : Char} (tok : List Char)
    (hsep : sep ∉ tok) :
    ∀ (a b : List Char), occursIn tok (a ++ sep :: b) = true →
      occursIn tok a = true ∨ occursIn tok b = true := by
  intro a
  induction a with
  | nil =>
    intro b h
    simp only [List.nil_append, occursIn, Bool.or_eq_true] at h
    rcases h with h | h
    · cases tok with
      | nil => left; rfl
      | cons t tok' =>
        exfalso
        simp only [leadMatch, Bool.and_eq_true, beq_iff_eq] at h
        exact hsep (by rw [← h.1]; exact List.mem_cons_self t tok')
    · exact Or.inr h
  | cons c a' ih =>
    intro b h
    simp only [List.cons_append, occursIn, Bool.or_eq_true] at h
    rcases h with h | h
    · left
      exact occursIn_of_leadMatch _ _
        (leadMatch_append_sep tok (c :: a') b hsep h)
    · rcases ih b h with h' | h'
      · left
        simp [occursIn, h']
      · exact Or.inr h'

theorem occursIn_glue {sep : Char} (tok a b : List Char) (hsep : sep ∉ tok)
    (ha : occursIn tok a = false) (hb : occursIn tok b = false) :
    occursIn tok (a ++ sep :: b) = false := by
  by_contra h
  have h' : occursIn tok (a ++ sep :: b) = true := by
    cases hcc : occursIn tok (a ++ sep :: b)
    · exact absurd hcc h
    · rfl
  rcases occursIn_append_sep tok hsep a b h' with h'' | h'' <;> simp_all

theorem lowerChar_idem (c : Char) : lowerChar (lowerChar c) = lowerChar c := by
  unfold lowerChar
  by_cases h : 65 ≤ c.toNat ∧ c.toNat ≤ 90
  · rw [if_pos h]
    have hv : Nat.isValidChar (c.toNat + 32) := Or.inl (by omega)
    have ht : (Char.ofNat (c.toNat + 32)).toNat = c.toNat + 32 := by
      unfold Char.ofNat
      rw [dif_pos hv]
      rfl
    rw [if_neg (by omega)]
  · rw [if_neg h, if_neg h]

theorem lowerChars_idem (l : List Char) :
    lowerChars (lowerChars l) = lowerChars l := by
  induction l with
  | nil => rfl
  | cons c rest ih =>
    show lowerChar (lowerChar c) :: lowerChars (lowerChars rest) =
      lowerChar c :: lowerChars rest
    rw [lowerChar_idem, ih]

theorem leaksChars_glue (a b : List Char)
    (ha : leaksChars a = false) (hb : leaksChars b = false) :
    leaksChars (a ++ ' ' :: b) = false := by
  have hl : lowerChars (a ++ ' ' :: b) =
      lowerChars a ++ ' ' :: lowerChars b := by
    simp only [lowerChars, List.map_append, List.map_cons]
    rfl
  simp only [leaksChars, leakTokens, List.any_cons, List.any_nil,
    Bool.or_eq_false_iff] at ha hb ⊢
  rw [hl]
  refine ⟨occursIn_glue _ _ _ (by decide) ha.1 hb.1,
    occursIn_glue _ _ _ (by decide) ha.2.1 hb.2.1,
    occursIn_glue _ _ _ (by decide) ha.2.2.1 hb.2.2.1, trivial⟩

theorem str_ext {x y : String} (h : x.data = y.data) : x = y := by
  obtain ⟨a⟩ := x
  obtain ⟨b⟩ := y
  cases h
  rfl

theorem leaksDetection_glue (a b : String) (ha : leaksDetection a = false)
    (hb : leaksDetection b = false) :
    leaksDetection (a ++ " " ++ b) = false := by
  have hsp : (" " : String).data = [' '] := rfl
  have hd : (a ++ " " ++ b).data = a.data ++ ' ' :: b.data := by
    simp [hsp, List.append_assoc]
  unfold leaksDetection at *
  rw [hd]
  exact leaksChars_glue _ _ ha hb

theorem leaks_lowerFirst (s : String) :
    leaksDetection (lowerFirst s) = leaksDetection s := by
  obtain ⟨l⟩ := s
  cases l with
  | nil => rfl
  | cons c rest =>
    show leaksChars (lowerChar c :: rest) = leaksChars (c :: rest)
    unfold leaksChars
    have : lowerChars (lowerChar c :: rest) = lowerChars (c :: rest) := by
      simp [lowerChars, lowerChar_idem]
    rw [this]

theorem leaks_lowerStr (x : String) :
    leaksDetection (lowerStr x) = leaksDetection x := by
  show leaksChars (lowerChars x.data) = leaksChars x.data
  unfold leaksChars
  rw [lowerChars_idem]

theorem leaks_empty : leaksDetection "" = false := by decide

theorem joinSpace_clean (l : List String)
    (h : ∀ s ∈ l, leaksDetection s = false) :
    leaksDetection (joinSpace l) = false := by
  induction l with
  | nil => exact leaks_empty
  | cons s rest ih =>
    cases rest with
    | nil => simpa [joinSpace] using h s (List.mem_cons_self _ _)
    | cons t rest' =>
      show leaksDetection (s ++ " " ++ joinSpace (t :: rest')) = false
      exact leaksDetection_glue _ _ (h s (List.mem_cons_self _ _))
        (ih (fun x hx => h x (List.mem_cons_of_mem _ hx)))

/-! ## Membership lemmas for the modelled random picks -/

theorem pickAt_mem (l : List String) (i : Nat) (h : l ≠ []) :
    pickAt l i ∈ l := by
  have hlt : i % l.length < l.length :=
    Nat.mod_lt _ (List.length_pos.mpr h)
  unfold pickAt
  rw [List.getElem?_eq_getElem hlt]
  exact List.getElem_mem hlt

theorem pickAt_mem_or_default (l : List String) (i : Nat) :
    pickAt l i ∈ l ∨ pickAt l i = "" := by
  by_cases h : l = []
  · right
    rw [h]
    rfl
  · exact Or.inl (pickAt_mem l i h)

theorem pickPairAt_mem_or_default (l : List (Nat × String)) (i : Nat) :
    pickPairAt l i ∈ l ∨ pickPairAt l i = (0, "") := by
  by_cases h : l = []
  · right
    rw [h]
    rfl
  · left
    have hlt : i % l.length < l.length :=
      Nat.mod_lt _ (List.length_pos.mpr h)
    unfold pickPairAt
    rw [List.getElem?_eq_getElem hlt]
    exact List.getElem_mem hlt

theorem enumFromIdx_mem (l : List String) :
    ∀ (n : Nat) (p : Nat × String), p ∈ enumFromIdx n l → p.2 ∈ l := by
  induction l with
  | nil => intro n p hp; simp [enumFromIdx] at hp
  | cons t rest ih =>
    intro n p hp
    simp only [enumFromIdx, List.mem_cons] at hp
    rcases hp with h | h
    · rw [h]
      exact List.mem_cons_self _ _
    · exact List.mem_cons_of_mem _ (ih _ _ h)

/-! ## Theorems for claim C9 -/

open Agent

theorem pickNonRepeat_fresh (pool used : List String) (choice : Nat)
    (h : ∃ r ∈ pool, r ∉ used) :
    (pickNonRepeat pool used choice).1 ∈ pool ∧
      (pickNonRepeat pool used choice).1 ∉ used := by
  obtain ⟨r, hr, hru⟩ := h
  have havail : r ∈ pool.filter (fun x => decide (x ∉ used)) :=
    List.mem_filter.mpr ⟨hr, by simpa using hru⟩
  have hne : pool.filter (fun x => decide (x ∉ used)) ≠ [] :=
    List.ne_nil_of_mem havail
  have hie : (pool.filter (fun x => decide (x ∉ used))).isEmpty = false :=
    List.isEmpty_eq_false.mpr hne
  unfold pickNonRepeat
  simp only [hie, Bool.false_eq_true, if_false]
  have hmem := pickAt_mem _ choice hne
  have hsplit := List.mem_filter.mp hmem
  exact ⟨hsplit.1, by simpa using hsplit.2⟩

/-- Claim C9: `_pick_non_repeat` never re-emits a used response while the
pool still holds an unused one — the choice is always drawn from the
pool, lies outside the session's `usedResponses` set whenever an unused
alternative remains, and is recorded into the set. -/
theorem c9_pick_non_repeat (pool used : List String) (choice : Nat)
    (h : ∃ r ∈ pool, r ∉ used) :
    (pickNonRepeat pool used choice).1 ∈ pool ∧
      (pickNonRepeat pool used choice).1 ∉ used ∧
      (pickNonRepeat pool used choice).2 =
        insertNew used (pickNonRepeat pool used choice).1 := by
  obtain ⟨h1, h2⟩ := pickNonRepeat_fresh pool used choice h
  exact ⟨h1, h2, rfl⟩

/-- Claim C9, witness: with the first stage-1 line already used, the pick
returns an unused stage-1 line and records it. -/
theorem c9_witness :
    (pickNonRepeat Agent.STAGE_1
        ["Hello? I don\x27t think we\x27ve spoken before. Who is this?"] 0).1 ∈
        Agent.STAGE_1 ∧
      (pickNonRepeat Agent.STAGE_1
        ["Hello? I don\x27t think we\x27ve spoken before. Who is this?"] 0).1 ∉
        (["Hello? I don\x27t think we\x27ve spoken before. Who is this?"] :
          List String) ∧
      (pickNonRepeat Agent.STAGE_1
        ["Hello? I don\x27t think we\x27ve spoken before. Who is this?"] 0).2 =
        insertNew
          ["Hello? I don\x27t think we\x27ve spoken before. Who is this?"]
          (pickNonRepeat Agent.STAGE_1
            ["Hello? I don\x27t think we\x27ve spoken before. Who is this?"] 0).1 :=
  c9_pick_non_repeat Agent.STAGE_1
    ["Hello? I don\x27t think we\x27ve spoken before. Who is this?"] 0
    ⟨"Ji? Kaun bol raha hai? I don\x27t recognise this number.",
      by decide, by decide⟩

/-! ## Theorems for claim C10 -/

open Quality

theorem getMissing_nil_iff (m : QualityMetrics) :
    getMissingThresholds m = [] ↔ thresholdsMet m = true := by
  unfold getMissingThresholds thresholdsMet
  constructor
  · intro h
    simp only [List.append_eq_nil] at h
    obtain ⟨⟨⟨⟨h1, h2⟩, h3⟩, h4⟩, h5⟩ := h
    have c1 : ¬ m.turnCount < MIN_TURN_COUNT := by
      intro hc
      rw [if_pos hc] at h1
      simp at h1
    have c2 : ¬ m.questionsAsked < MIN_QUESTIONS_ASKED := by
      intro hc
      rw [if_pos hc] at h2
      simp at h2
    have c3 : ¬ m.investigativeQuestions < MIN_INVESTIGATIVE_QUESTIONS := by
      intro hc
      rw [if_pos hc] at h3
      simp at h3
    have c4 : ¬ m.redFlagsIdentified.length < MIN_RED_FLAGS := by
      intro hc
      rw [if_pos hc] at h4
      simp at h4
    have c5 : ¬ m.elicitationAttempts < MIN_ELICITATION_ATTEMPTS := by
      intro hc
      rw [if_pos hc] at h5
      simp at h5
    simp only [Bool.and_eq_true, decide_eq_true_eq]
    omega
  · intro h
    simp only [Bool.and_eq_true, decide_eq_true_eq] at h
    rw [if_neg (by omega), if_neg (by omega), if_neg (by omega),
      if_neg (by omega), if_neg (by omega)]
    rfl

/-- Claim C10: `generate_probing_response` returns `None` exactly when all
five quality thresholds are already met; with any threshold missing,
every branch — compound and single-purpose alike — produces a response
string. -/
theorem c10_probing_none_iff_thresholds_met (m : QualityMetrics)
    (used : List Nat) (signals : List String) (stage : Nat)
    (intel : Option IntelFlags) (ch : ProbeChoices) :
    ((generateProbingResponse m used signals stage intel ch).1 = none) ↔
      thresholdsMet m = true := by
  unfold generateProbingResponse
  by_cases hm : (getMissingThresholds m).isEmpty = true
  · rw [if_pos hm]
    exact iff_of_true rfl
      ((getMissing_nil_iff m).mp (List.isEmpty_iff.mp hm))
  · rw [if_neg hm]
    have hf : ¬ thresholdsMet m = true := fun ht =>
      hm (List.isEmpty_iff.mpr ((getMissing_nil_iff m).mpr ht))
    apply iff_of_false ?_ hf
    by_cases hu : 2 ≤ (getMissingThresholds m).length -
        (if (List.lookup "turns" (getMissingThresholds m)).isSome then 1
          else 0) ∧ MIN_TURN_COUNT / 2 ≤ m.turnCount
    · rw [if_pos hu]
      simp
    · rw [if_neg hu]
      by_cases hi :
          0 < (List.lookup "investigative" (getMissingThresholds m)).getD 0
      · rw [if_pos hi]
        simp
      · rw [if_neg hi]
        repeat' split
        all_goals try simp
        all_goals (split <;> simp)

/-- Claim C10, witness: a metrics record exactly at the five thresholds
makes the tracker return `None`, and the fresh-session record (all
thresholds missing) makes it return a response. -/
theorem c10_witness :
    (generateProbingResponse
        ⟨8, 5, 3, ["urgency", "otp_request", "payment_request",
          "legal_threat", "courier"], 5, false⟩ [] [] 1 none
        ⟨0, 0, 0, 0, 0, 0⟩).1 = none ∧
      (generateProbingResponse initialMetrics [] [] 1 none
        ⟨0, 0, 0, 0, 0, 0⟩).1 ≠ none := by
  constructor
  · exact (c10_probing_none_iff_thresholds_met _ [] [] 1 none _).mpr
      (by decide)
  · intro h
    have := (c10_probing_none_iff_thresholds_met initialMetrics [] [] 1 none
      ⟨0, 0, 0, 0, 0, 0⟩).mp h
    simp [thresholdsMet, initialMetrics, MIN_TURN_COUNT] at this

/-! ## Clean-pool machinery for the no-leak property -/

theorem cleanPool_mem {l : List String} {r : String} (h : cleanPool l = true)
    (hr : r ∈ l) : leaksDetection r = false := by
  have := (List.all_eq_true.mp h) r hr
  simpa using this

theorem cleanPool_append {a b : List String} (ha : cleanPool a = true)
    (hb : cleanPool b = true) : cleanPool (a ++ b) = true := by
  simp only [cleanPool, List.all_append, Bool.and_eq_true]
  exact ⟨ha, hb⟩

theorem cleanPool_ite {c : Prop} [Decidable c] {a b : List String}
    (ha : cleanPool a = true) (hb : cleanPool b = true) :
    cleanPool (if c then a else b) = true := by
  split
  · exact ha
  · exact hb

theorem cleanPool_filter (p : String → Bool) {l : List String}
    (h : cleanPool l = true) : cleanPool (l.filter p) = true := by
  simp only [cleanPool, List.all_eq_true] at h ⊢
  intro r hr
  exact h r (List.mem_of_mem_filter hr)

theorem pickAt_clean (l : List String) (i : Nat) (h : cleanPool l = true) :
    leaksDetection (pickAt l i) = false := by
  rcases pickAt_mem_or_default l i with hm | he
  · exact cleanPool_mem h hm
  · rw [he]
    exact leaks_empty

theorem mem_of_mem_ite {α : Type} {c : Prop} [Decidable c] {a b : List α}
    {s : α} (hs : s ∈ (if c then a else b)) : s ∈ a ∨ s ∈ b := by
  split at hs
  · exact Or.inl hs
  · exact Or.inr hs

theorem lookup_clean {k : String} {ts : List String} :
    ∀ (l : List (String × List String)),
      (∀ kv ∈ l, cleanPool kv.2 = true) →
      List.lookup k l = some ts → cleanPool ts = true := by
  intro l
  induction l with
  | nil =>
    intro _ h
    exact Option.noConfusion h
  | cons kv rest ih =>
    intro hall h
    obtain ⟨k1, v1⟩ := kv
    rw [List.lookup_cons] at h
    cases hbe : k == k1 with
    | true =>
      rw [hbe] at h
      injection h with h1
      rw [← h1]
      exact hall (k1, v1) (List.mem_cons_self _ _)
    | false =>
      rw [hbe] at h
      exact ih (fun kv hkv => hall kv (List.mem_cons_of_mem _ hkv)) h

/-! ### The embedded pools hold no leak token (checked by evaluation) -/

theorem stage1_clean : cleanPool Agent.STAGE_1 = true := by decide

theorem stage2_clean : cleanPool Agent.STAGE_2 = true := by decide

theorem stage3_clean : cleanPool Agent.STAGE_3 = true := by decide

theorem stage4_clean : cleanPool Agent.STAGE_4 = true := by decide

theorem stage5_clean : cleanPool Agent.STAGE_5 = true := by decide

theorem otp_clean : cleanPool Agent.OTP_RESPONSES = true := by decide

theorem account_clean : cleanPool Agent.ACCOUNT_RESPONSES = true := by decide

theorem threat_clean : cleanPool Agent.THREAT_RESPONSES = true := by decide

theorem payment_lure_clean : cleanPool Agent.PAYMENT_LURE_RESPONSES = true := by
  decide

theorem account_compromise_clean :
    cleanPool Agent.ACCOUNT_COMPROMISE_RESPONSES = true := by decide

theorem courier_clean : cleanPool Agent.COURIER_RESPONSES = true := by decide

theorem tech_confusion_clean : cleanPool Agent.TECH_CONFUSION = true := by
  decide

theorem tech_support_clean : cleanPool Agent.TECH_SUPPORT_RESPONSES = true := by
  decide

theorem job_fraud_clean : cleanPool Agent.JOB_FRAUD_RESPONSES = true := by
  decide

theorem investment_clean : cleanPool Agent.INVESTMENT_RESPONSES = true := by
  decide

theorem identity_clean : cleanPool Agent.IDENTITY_RESPONSES = true := by decide

theorem stalling_clean : cleanPool Agent.STALLING = true := by decide

theorem continuation_clean : cleanPool Agent.CONTINUATION_PROMPTS = true := by
  decide

theorem red_flag_phrases_clean : cleanPool Agent.RED_FLAG_PHRASES = true := by
  decide

theorem elicitation_phrases_clean :
    cleanPool Agent.ELICITATION_PHRASES = true := by decide

theorem enhance_connectors_clean :
    cleanPool Agent.ENHANCE_CONNECTORS = true := by decide

theorem investigative_templates_clean :
    cleanPool Quality.INVESTIGATIVE_TEMPLATES = true := by decide

theorem elicitation_templates_clean :
    cleanPool Quality.ELICITATION_TEMPLATES = true := by decide

theorem redflag_templates_clean :
    ∀ kv ∈ Quality.RED_FLAG_TEMPLATES, cleanPool kv.2 = true := by decide

/-! ### Cleanliness flows through the fallback reply pipeline -/

theorem selectPool_clean (tactics : List String) (stage msgCount : Nat)
    (r1 r2 r3 : Bool) :
    cleanPool (Agent.selectPool tactics stage msgCount r1 r2 r3) = true := by
  unfold Agent.selectPool
  repeat' apply cleanPool_ite
  all_goals
    first
      | (with_reducible exact otp_clean)
      | (with_reducible exact account_clean)
      | (with_reducible exact tech_confusion_clean)
      | (with_reducible exact courier_clean)
      | (with_reducible exact tech_support_clean)
      | (with_reducible exact job_fraud_clean)
      | (with_reducible exact investment_clean)
      | (with_reducible exact identity_clean)
      | (with_reducible exact threat_clean)
      | (with_reducible exact payment_lure_clean)
      | (with_reducible exact account_compromise_clean)
      | (with_reducible exact stage1_clean)
      | (with_reducible exact stage2_clean)
      | (with_reducible exact stage3_clean)
      | (with_reducible exact stage4_clean)
      | (with_reducible exact stage5_clean)
      | (with_reducible exact stalling_clean)
      | (with_reducible exact continuation_clean)

theorem blendVariety_clean (pool : List String) (stage : Nat)
    (h : cleanPool pool = true) :
    cleanPool (Agent.blendVariety pool stage) = true := by
  unfold Agent.blendVariety
  exact cleanPool_append h
    (cleanPool_append (cleanPool_append stalling_clean tech_confusion_clean)
      (cleanPool_ite continuation_clean (by decide)))

theorem filterRedundantAsks_clean (pool : List String)
    (intel : Quality.IntelFlags) (h : cleanPool pool = true) :
    cleanPool (Agent.filterRedundantAsks pool intel) = true := by
  unfold Agent.filterRedundantAsks
  exact cleanPool_ite h (cleanPool_ite (cleanPool_filter _ h) h)

theorem filterByThemeDiversity_clean (pool : List String)
    (lastTheme : Option String) (h : cleanPool pool = true) :
    cleanPool (Agent.filterByThemeDiversity pool lastTheme) = true := by
  cases lastTheme with
  | none => exact h
  | some t => exact cleanPool_ite h (cleanPool_ite (cleanPool_filter _ h) h)

theorem pickNonRepeat_clean (pool used : List String) (choice : Nat)
    (h : cleanPool pool = true) :
    leaksDetection (Agent.pickNonRepeat pool used choice).1 = false := by
  unfold Agent.pickNonRepeat
  exact pickAt_clean _ _ (cleanPool_ite h (cleanPool_filter _ h))

theorem enhance_branch_clean (response conn : String) (adds : List String)
    (h : leaksDetection response = false) (hc : leaksDetection conn = false)
    (ha : ∀ s ∈ adds, leaksDetection s = false) :
    leaksDetection (if adds.isEmpty then response
      else response ++ " " ++ conn ++ " " ++
        lowerStr (joinSpace adds)) = false := by
  split
  · exact h
  · refine leaksDetection_glue _ _ (leaksDetection_glue _ _ h hc) ?_
    rw [leaks_lowerStr]
    exact joinSpace_clean _ ha

theorem enhance_clean (isScam : Bool) (msgCount redChoice elicChoice : Nat)
    (connChoice : Nat) (response : String)
    (h : leaksDetection response = false) :
    leaksDetection (Agent.enhanceResponseForQuality isScam msgCount redChoice
      elicChoice connChoice response) = false := by
  unfold Agent.enhanceResponseForQuality
  split
  · exact h
  · refine enhance_branch_clean response _ _ h
      (pickAt_clean _ _ enhance_connectors_clean) ?_
    intro s hs
    have hr : s = pickAt Agent.RED_FLAG_PHRASES redChoice →
        leaksDetection s = false := by
      intro he
      rw [he]
      exact pickAt_clean _ _ red_flag_phrases_clean
    rcases mem_of_mem_ite hs with hs | hs
    · rcases mem_of_mem_ite hs with hs | hs
      · rcases mem_of_mem_ite hs with hs | hs
        · exact absurd hs (List.not_mem_nil s)
        · exact hr (List.mem_singleton.mp hs)
      · rcases List.mem_append.mp hs with hs | hs
        · rcases mem_of_mem_ite hs with hs | hs
          · exact absurd hs (List.not_mem_nil s)
          · exact hr (List.mem_singleton.mp hs)
        · rw [List.mem_singleton.mp hs]
          exact pickAt_clean _ _ elicitation_phrases_clean
    · rcases mem_of_mem_ite hs with hs | hs
      · exact absurd hs (List.not_mem_nil s)
      · exact hr (List.mem_singleton.mp hs)

theorem getReplyFallback_clean (tactics : List String) (stage msgCount : Nat)
    (isScam : Bool) (tacticStreak : Nat) (contOverride : Bool)
    (intel : Quality.IntelFlags) (lastTheme : Option String)
    (used : List String) (r1 r2 r3 : Bool)
    (pickChoice redChoice elicChoice connChoice : Nat) :
    leaksDetection (Agent.getReplyFallback tactics stage msgCount isScam
      tacticStreak contOverride intel lastTheme used r1 r2 r3 pickChoice
      redChoice elicChoice connChoice) = false := by
  unfold Agent.getReplyFallback
  exact enhance_clean _ _ _ _ _ _
    (pickNonRepeat_clean _ _ _
      (filterByThemeDiversity_clean _ _
        (filterRedundantAsks_clean _ _
          (cleanPool_ite continuation_clean
            (cleanPool_ite
              (blendVariety_clean _ _
                (selectPool_clean tactics stage msgCount r1 r2 r3))
              (selectPool_clean tactics stage msgCount r1 r2 r3))))))

/-! ### Cleanliness flows through the probing pipeline -/

theorem connector_decomp (i : Nat) :
    ∃ mid, (pickAt Quality.COMPOUND_CONNECTORS i).data =
      ' ' :: (mid ++ [' ']) ∧ leaksChars mid = false := by
  have hl : Quality.COMPOUND_CONNECTORS.length = 6 := rfl
  have hlt : i % 6 < 6 := Nat.mod_lt _ (by omega)
  have h6 : i % 6 = 0 ∨ i % 6 = 1 ∨ i % 6 = 2 ∨ i % 6 = 3 ∨ i % 6 = 4 ∨
      i % 6 = 5 := by omega
  unfold pickAt
  rw [hl]
  rcases h6 with h | h | h | h | h | h <;> rw [h]
  · exact ⟨"Also,".data, rfl, by decide⟩
  · exact ⟨"And one more thing —".data, rfl, by decide⟩
  · exact ⟨"By the way,".data, rfl, by decide⟩
  · exact ⟨"While we are on this,".data, rfl, by decide⟩
  · exact ⟨"Oh and also,".data, rfl, by decide⟩
  · exact ⟨"Before I forget —".data, rfl, by decide⟩

theorem leaks_append_conn (a conn b : String) (mid : List Char)
    (hconn : conn.data = ' ' :: (mid ++ [' ']))
    (ha : leaksDetection a = false) (hm : leaksChars mid = false)
    (hb : leaksDetection b = false) :
    leaksDetection (a ++ conn ++ b) = false := by
  unfold leaksDetection at ha hb ⊢
  have hd : (a ++ conn ++ b).data = a.data ++ ' ' :: (mid ++ ' ' :: b.data) := by
    simp [String.data_append, hconn, List.append_assoc]
  rw [hd]
  exact leaksChars_glue _ _ ha (leaksChars_glue _ _ hm hb)

theorem getUnusedTemplate_clean (templates : List String) (used : List Nat)
    (choice : Nat) (h : cleanPool templates = true) :
    leaksDetection (Quality.getUnusedTemplate templates used choice).1 =
      false := by
  unfold Quality.getUnusedTemplate
  dsimp only
  split
  · exact pickAt_clean _ _ h
  · rcases pickPairAt_mem_or_default
        ((enumFromIdx 0 templates).filter (fun it => decide (it.1 ∉ used)))
        choice with hm | he
    · exact cleanPool_mem h
        (enumFromIdx_mem templates 0 _ (List.mem_filter.mp hm).1)
    · rw [he]
      exact leaks_empty

theorem filterTemplatesByIntel_clean (templates : List String)
    (intel : Option Quality.IntelFlags) (h : cleanPool templates = true) :
    cleanPool (Quality.filterTemplatesByIntel templates intel) = true := by
  cases intel with
  | none => exact h
  | some flags => exact cleanPool_ite h (cleanPool_ite h (cleanPool_filter _ h))

theorem compoundPartA_clean (m : Quality.QualityMetrics)
    (missing : List (String × Nat)) (ds : List String)
    (ch : Quality.ProbeChoices) (sk : String × String)
    (h : Quality.compoundPartA m missing ds ch = some sk) :
    leaksDetection sk.1 = false := by
  unfold Quality.compoundPartA at h
  dsimp only at h
  split at h
  · split at h
    · split at h
      · injection h with h1
        rw [← h1]
        exact pickAt_clean _ _
          (lookup_clean _ redflag_templates_clean (by assumption))
      · exact Option.noConfusion h
    · exact Option.noConfusion h
  · exact Option.noConfusion h

theorem compoundParts_clean (m : Quality.QualityMetrics)
    (missing : List (String × Nat)) (ds : List String) (stage : Nat)
    (used : List Nat) (intel : Option Quality.IntelFlags)
    (ch : Quality.ProbeChoices) :
    ∀ s ∈ (Quality.compoundParts m missing ds stage used intel ch).1,
      leaksDetection s = false := by
  have hA : ∀ t ∈ (match Quality.compoundPartA m missing ds ch with
      | some sk => [sk.1]
      | none => ([] : List String)), leaksDetection t = false := by
    intro t ht
    cases hpa : Quality.compoundPartA m missing ds ch with
    | none =>
      rw [hpa] at ht
      exact absurd ht (List.not_mem_nil t)
    | some sk =>
      rw [hpa] at ht
      rw [List.mem_singleton.mp ht]
      exact compoundPartA_clean m missing ds ch sk hpa
  have hI : leaksDetection
      (Quality.getUnusedTemplate Quality.INVESTIGATIVE_TEMPLATES used
        ch.invChoice).1 = false :=
    getUnusedTemplate_clean _ _ _ investigative_templates_clean
  intro s hs
  unfold Quality.compoundParts at hs
  dsimp only at hs
  by_cases hE : 0 < ((List.lookup "elicitation" missing).getD 0) ∧ 2 ≤ stage
  · rw [if_pos hE] at hs
    rcases List.mem_append.mp hs with hs | hs
    · by_cases hJ : 0 < ((List.lookup "investigative" missing).getD 0)
      · rw [if_pos hJ] at hs
        rcases List.mem_append.mp hs with hs | hs
        · exact hA s hs
        · rw [List.mem_singleton.mp hs]
          exact hI
      · rw [if_neg hJ] at hs
        exact hA s hs
    · rw [List.mem_singleton.mp hs]
      exact getUnusedTemplate_clean _ _ _
        (filterTemplatesByIntel_clean _ _ elicitation_templates_clean)
  · rw [if_neg hE] at hs
    by_cases hJ : 0 < ((List.lookup "investigative" missing).getD 0)
    · rw [if_pos hJ] at hs
      rcases List.mem_append.mp hs with hs | hs
      · exact hA s hs
      · rw [List.mem_singleton.mp hs]
        exact hI
    · rw [if_neg hJ] at hs
      exact hA s hs

theorem stitchResponse_clean (parts : List String)
    (ch : Quality.ProbeChoices)
    (h : ∀ s ∈ parts, leaksDetection s = false) :
    leaksDetection (Quality.stitchResponse parts ch) = false := by
  cases parts with
  | nil => exact leaks_empty
  | cons p0 rest =>
    cases rest with
    | nil => exact h p0 (List.mem_cons_self _ _)
    | cons e1 rest2 =>
      have hp0 := h p0 (List.mem_cons_self _ _)
      have he1 := h e1 (List.mem_cons_of_mem _ (List.mem_cons_self _ _))
      obtain ⟨mid1, hmid1, hmc1⟩ := connector_decomp ch.connChoice1
      have hr1 : leaksDetection
          (p0 ++ pickAt Quality.COMPOUND_CONNECTORS ch.connChoice1 ++
            lowerFirst e1) = false :=
        leaks_append_conn _ _ _ mid1 hmid1 hp0 hmc1
          (by rw [leaks_lowerFirst]; exact he1)
      cases rest2 with
      | nil => exact hr1
      | cons e2 rest3 =>
        have he2 := h e2 (List.mem_cons_of_mem _
          (List.mem_cons_of_mem _ (List.mem_cons_self _ _)))
        obtain ⟨mid2, hmid2, hmc2⟩ := connector_decomp ch.connChoice2
        exact leaks_append_conn _ _ _ mid2 hmid2 hr1 hmc2
          (by rw [leaks_lowerFirst]; exact he2)

theorem buildCompoundProbe_clean (m : Quality.QualityMetrics)
    (missing : List (String × Nat)) (ds : List String) (stage : Nat)
    (used : List Nat) (intel : Option Quality.IntelFlags)
    (ch : Quality.ProbeChoices) :
    leaksDetection
      (Quality.buildCompoundProbe m missing ds stage used intel ch).1 =
      false := by
  have hparts := compoundParts_clean m missing ds stage used intel ch
  unfold Quality.buildCompoundProbe
  dsimp only
  cases hpc : (Quality.compoundParts m missing ds stage used intel ch).1 with
  | nil =>
    exact getUnusedTemplate_clean _ _ _ investigative_templates_clean
  | cons p0 rest =>
    rw [hpc] at hparts
    exact stitchResponse_clean _ ch hparts

theorem generateProbingResponse_clean (m : Quality.QualityMetrics)
    (used : List Nat) (ds : List String) (stage : Nat)
    (intel : Option Quality.IntelFlags) (ch : Quality.ProbeChoices)
    (s : String)
    (h : (Quality.generateProbingResponse m used ds stage intel ch).1 =
      some s) :
    leaksDetection s = false := by
  unfold Quality.generateProbingResponse at h
  dsimp only at h
  by_cases hm : (Quality.getMissingThresholds m).isEmpty = true
  · rw [if_pos hm] at h
    exact Option.noConfusion h
  · rw [if_neg hm] at h
    by_cases hu : 2 ≤ (Quality.getMissingThresholds m).length -
        (if (List.lookup "turns" (Quality.getMissingThresholds m)).isSome
          then 1 else 0) ∧ Quality.MIN_TURN_COUNT / 2 ≤ m.turnCount
    · rw [if_pos hu] at h
      rw [← Option.some.inj h]
      exact buildCompoundProbe_clean _ _ _ _ _ _ _
    · rw [if_neg hu] at h
      by_cases hi : 0 <
          (List.lookup "investigative" (Quality.getMissingThresholds m)).getD 0
      · rw [if_pos hi] at h
        rw [← Option.some.inj h]
        exact getUnusedTemplate_clean _ _ _ investigative_templates_clean
      · rw [if_neg hi] at h
        split at h
        · rename_i tk heq2
          rw [← Option.some.inj h]
          have hcl : cleanPool tk.1 = true := by
            split at heq2
            · split at heq2
              · split at heq2
                · rw [← congrArg Prod.fst (Option.some.inj heq2)]
                  exact lookup_clean _ redflag_templates_clean (by assumption)
                · exact Option.noConfusion heq2
              · exact Option.noConfusion heq2
            · exact Option.noConfusion heq2
          exact pickAt_clean _ _ hcl
        · by_cases he : 0 <
              (List.lookup "elicitation"
                (Quality.getMissingThresholds m)).getD 0 ∧ 3 ≤ stage
          · rw [if_pos he] at h
            rw [← Option.some.inj h]
            exact getUnusedTemplate_clean _ _ _
              (filterTemplatesByIntel_clean _ _ elicitation_templates_clean)
          · rw [if_neg he] at h
            rw [← Option.some.inj h]
            exact getUnusedTemplate_clean _ _ _ investigative_templates_clean

/-! ### Claim C4 -/

/-- Claim C4, counterexample: with no detected tactics at stage 2, the
fallback reply path can emit the stage-2 line "I\x27m worried this might
be a scam. ...", which contains the literal token "scam" — the spec's
list of banned tokens is too strong on that word. -/
theorem c4_counterexample :
    containsTokCI
      (Agent.getReplyFallback [] 2 4 false 1 false
        ⟨false, false, false, false⟩ none [] false false false 15 0 0 0)
      "scam" = true := by decide

/-- Claim C4 (amended): every reply emitted by the engagement controller —
through the pool-selection fallback path and through the quality-probing
path — is free of the literal tokens "detection", "honeypot" and "agent"
(case-insensitive).  The token "scam" does occur in some pool entries, so
the original four-token list is cut down to these three. -/
theorem c4_no_meta_leak_tokens :
    (∀ (tactics : List String) (stage msgCount : Nat) (isScam : Bool)
        (tacticStreak : Nat) (contOverride : Bool)
        (intel : Quality.IntelFlags) (lastTheme : Option String)
        (used : List String) (r1 r2 r3 : Bool)
        (pickChoice redChoice elicChoice connChoice : Nat),
      leaksDetection (Agent.getReplyFallback tactics stage msgCount isScam
        tacticStreak contOverride intel lastTheme used r1 r2 r3 pickChoice
        redChoice elicChoice connChoice) = false) ∧
    (∀ (m : Quality.QualityMetrics) (used : List Nat) (ds : List String)
        (stage : Nat) (intel : Option Quality.IntelFlags)
        (ch : Quality.ProbeChoices) (s : String) (msgCount : Nat)
        (isScam : Bool) (redChoice elicChoice connChoice : Nat),
      (Quality.generateProbingResponse m used ds stage intel ch).1 = some s →
      leaksDetection (Agent.getReplyProbing s msgCount isScam redChoice
        elicChoice connChoice) = false) := by
  constructor
  · intro tactics stage msgCount isScam tacticStreak contOverride intel
      lastTheme used r1 r2 r3 pickChoice redChoice elicChoice connChoice
    exact getReplyFallback_clean tactics stage msgCount isScam tacticStreak
      contOverride intel lastTheme used r1 r2 r3 pickChoice redChoice
      elicChoice connChoice
  · intro m used ds stage intel ch s msgCount isScam redChoice elicChoice
      connChoice h
    exact enhance_clean _ _ _ _ _ _
      (generateProbingResponse_clean m used ds stage intel ch s h)

/-- Claim C4, witness: the probing reply built for a fresh session (all
thresholds missing, no urgency) is the first investigative template, and
the emitted reply is leak-free. -/
theorem c4_witness :
    leaksDetection
      (Agent.getReplyProbing
        "Can you please tell me your company name and official registration number?"
        1 false 0 0 0) = false :=
  c4_no_meta_leak_tokens.2 Quality.initialMetrics [] [] 1 none
    ⟨0, 0, 0, 0, 0, 0⟩ _ 1 false 0 0 0 (by decide)

end TrustHoneypot
